import Mathlib

/-!
Verification of the KP-system calculation engine (KP-system repository).

This file gives a shallow embedding, over exact rationals, of the pure
computational core of the repository:

* `app/core/kp_data.py` — the fixed Vimshottari tables and sign/nakshatra data;
* `app/services/sublord.py` — longitude normalization and the
  sign/star/sub lordship resolver;
* `app/services/horary.py` — the 1..249 horary table generator and the
  bracket-narrowing ascendant time search;
* `app/services/astronomy.py` — Julian Day conversions;
* `app/services/ayanamsa.py` — the three ayanamsa modes;
* `app/services/dasha.py` — dasha balance and the three period-subdivision
  functions.

Convention: Python floats are modelled as exact rationals (`ℚ`), Python `int()`
truncation as `pytrunc`, Python `round(x, n)` (round-half-to-even) as
`pyRound n x`, and Python dictionaries/dataclasses as Lean structures.  The
trigonometric ascendant evaluation (Skyfield / `math` library) is not
embeddable exactly; where a claim concerns only control flow around it
(the time search), the ascendant-at-time evaluation is abstracted as a
function parameter.
-/

set_option allowUnsafeReducibility true

/- Core Lean marks the rational arithmetic operations irreducible (they have
fast compiled counterparts); proofs here evaluate them definitionally via
`decide`, so restore the default reducibility. -/
attribute [semireducible] Rat.add Rat.mul Rat.div Rat.sub Rat.neg Rat.inv Rat.ofScientific

set_option maxRecDepth 8000

/-- Planet is the set of the nine Vimshottari dasha lords used throughout
`kp_data.py` (`VIMSHOTTARI_ORDER` and the `lord` fields). -/
inductive Planet where
  | Ketu | Venus | Sun | Moon | Mars | Rahu | Jupiter | Saturn | Mercury
deriving DecidableEq, BEq

/-- VIMSHOTTARI_ORDER from `app/core/kp_data.py`:
Ketu, Venus, Sun, Moon, Mars, Rahu, Jupiter, Saturn, Mercury. -/
def VIMSHOTTARI_ORDER : List Planet :=
  [.Ketu, .Venus, .Sun, .Moon, .Mars, .Rahu, .Jupiter, .Saturn, .Mercury]

/-- VIMSHOTTARI_PERIODS from `app/core/kp_data.py` (years; total 120). -/
def VIMSHOTTARI_PERIODS : Planet → ℚ
  | .Ketu => 7
  | .Venus => 20
  | .Sun => 6
  | .Moon => 10
  | .Mars => 7
  | .Rahu => 18
  | .Jupiter => 16
  | .Saturn => 19
  | .Mercury => 17

/-- TOTAL_DASHA_YEARS from `app/core/kp_data.py`. -/
def TOTAL_DASHA_YEARS : ℚ := 120

/-- NAKSHATRA_SPAN from `app/core/kp_data.py`: `13.0 + 20.0 / 60.0` degrees. -/
def NAKSHATRA_SPAN : ℚ := 13 + 20 / 60

/-- Lords of the 27 nakshatras, in order, from the NAKSHATRAS table of
`app/core/kp_data.py` (only the `lord` field is relevant to the claims;
names and the redundant `start` column are omitted). -/
def NAKSHATRAS : List Planet :=
  [.Ketu, .Venus, .Sun, .Moon, .Mars, .Rahu, .Jupiter, .Saturn, .Mercury,
   .Ketu, .Venus, .Sun, .Moon, .Mars, .Rahu, .Jupiter, .Saturn, .Mercury,
   .Ketu, .Venus, .Sun, .Moon, .Mars, .Rahu, .Jupiter, .Saturn, .Mercury]

/-- Lords of the 12 zodiac signs, in order, from the ZODIAC_SIGNS table of
`app/core/kp_data.py`. -/
def ZODIAC_SIGNS : List Planet :=
  [.Mars, .Venus, .Mercury, .Moon, .Sun, .Mercury,
   .Venus, .Mars, .Jupiter, .Saturn, .Saturn, .Jupiter]

/-- Python `int(q)`: truncation toward zero. -/
def pytrunc (q : ℚ) : ℤ := if 0 ≤ q then ⌊q⌋ else ⌈q⌉

/-- Python `round` of a rational to the nearest integer, halves to even
(banker's rounding), as used by Python's builtin `round`. -/
def pyRoundInt (q : ℚ) : ℤ :=
  let f := ⌊q⌋
  let r := q - f
  if r < 1 / 2 then f
  else if 1 / 2 < r then f + 1
  else if f % 2 = 0 then f else f + 1

/-- Python `round(x, n)`: round to `n` decimal places, halves to even. -/
def pyRound (n : ℕ) (x : ℚ) : ℚ := (pyRoundInt (x * 10 ^ n) : ℚ) / 10 ^ n

/-- normalize_longitude from `app/services/sublord.py` (and the identical
normalize_angle of `app/services/astronomy.py`): the source loops
`while longitude < 0: longitude += 360` / `while longitude >= 360: longitude -= 360`,
which computes exactly the remainder of the longitude modulo 360 in `[0, 360)`. -/
def normalize_longitude (longitude : ℚ) : ℚ := longitude - 360 * ⌊longitude / 360⌋

/-- Planet of the sub at offset `i` from Vimshottari start index `s`
(the source expression `VIMSHOTTARI_ORDER[(start_index + i) % 9]`). -/
def sub_planet (s i : ℕ) : Planet := VIMSHOTTARI_ORDER.getD ((s + i) % 9) .Ketu

/-- Span in degrees of one sub: the source expression
`(period / TOTAL_DASHA_YEARS) * NAKSHATRA_SPAN`. -/
def sub_span_q (p : Planet) : ℚ := VIMSHOTTARI_PERIODS p / TOTAL_DASHA_YEARS * NAKSHATRA_SPAN

/-- Running value of the source's `accumulated` (in `get_sub_lord`) and
`sub_position` (in `generate_horary_table`) accumulators before sub `i`:
the sum of the spans of the subs `0 .. i-1` from start index `s`. -/
def sub_position (s i : ℕ) : ℚ :=
  ((List.range i).map (fun j => sub_span_q (sub_planet s j))).sum

/-- Star (nakshatra) index selected for a normalized longitude by
`get_star` / `get_sub_lord` / `get_sub_sub_lord` in `app/services/sublord.py`:
`int(longitude / NAKSHATRA_SPAN)`, reset to 0 when it reaches 27. -/
def star_index_of (longitude : ℚ) : ℕ :=
  let i := (pytrunc (longitude / NAKSHATRA_SPAN)).toNat
  if 27 ≤ i then 0 else i

/-- get_star from `app/services/sublord.py`, returning the fields used by the
claims: the nakshatra lord, the pada, and `position_in_star` rounded to six
decimals as the source stores it. -/
def get_star (longitude : ℚ) : Planet × ℕ × ℚ :=
  let longitude := normalize_longitude longitude
  let star_index := star_index_of longitude
  let lord := NAKSHATRAS.getD star_index .Ketu
  let position_in_star := longitude - star_index * NAKSHATRA_SPAN
  let pada_span := NAKSHATRA_SPAN / 4
  let pada := (pytrunc (position_in_star / pada_span)).toNat + 1
  let pada := if 4 < pada then 4 else pada
  (lord, pada, pyRound 6 position_in_star)

/-- Loop of `get_sub_lord` in `app/services/sublord.py`: starting from sub
index `i` with the accumulated span so far and `remaining` loop turns left
(the source's `for i in range(9)` enters with `remaining = 9 - i`), walk the
subs and return the first planet whose cumulative span strictly exceeds
`position_in_star`, together with the selected sub's start and end offsets
(`sub_start`, `sub_end`).  Returns `none` when the loop finishes without a
break. -/
def findSub (s : ℕ) (position_in_star : ℚ) :
    (remaining : ℕ) → (i : ℕ) → (accumulated : ℚ) → Option (Planet × ℚ × ℚ)
  | 0, _, _ => none
  | remaining + 1, i, accumulated =>
    let planet := sub_planet s i
    let span := sub_span_q planet
    if position_in_star < accumulated + span then
      some (planet, accumulated, accumulated + span)
    else
      findSub s position_in_star remaining (i + 1) (accumulated + span)

/-- Result of `get_sub_lord` before its final rounding: the selected sub lord
with the internal `sub_start`, `sub_end` and `position_in_star` values of
`app/services/sublord.py`. -/
structure SubLordResult where
  lord : Planet
  sub_start : ℚ
  sub_end : ℚ
  position_in_star : ℚ
deriving DecidableEq

/-- Body of get_sub_lord from `app/services/sublord.py` up to (but excluding)
the final 6-decimal rounding of `position_in_sub`.  The fallback branch
(`if sub_lord is None`) keeps `sub_start = sub_end = 0.0` exactly as the
source leaves those variables. -/
def get_sub_lord_full (longitude : ℚ) : SubLordResult :=
  let longitude := normalize_longitude longitude
  let star_index := star_index_of longitude
  let star_lord := NAKSHATRAS.getD star_index .Ketu
  let position_in_star := longitude - star_index * NAKSHATRA_SPAN
  let start_index := VIMSHOTTARI_ORDER.indexOf star_lord
  match findSub start_index position_in_star 9 0 0 with
  | some (p, a, b) => ⟨p, a, b, position_in_star⟩
  | none => ⟨sub_planet start_index 8, 0, 0, position_in_star⟩

/-- get_sub_lord from `app/services/sublord.py`: the selected sub lord and
`position_in_sub` rounded to six decimals, as the returned dictionary stores
it. -/
def get_sub_lord (longitude : ℚ) : Planet × ℚ :=
  let f := get_sub_lord_full longitude
  (f.lord, pyRound 6 (f.position_in_star - f.sub_start))

/-- Entry of the horary table built by generate_horary_table in
`app/services/horary.py` (the `horary_info` dictionary fields relevant to the
claims; the `sign`/`nakshatra` name strings are represented by the lords). -/
structure HoraryEntry where
  start_longitude : ℚ
  end_longitude : ℚ
  sign_lord : Planet
  star_lord : Planet
  sub_lord : Planet
deriving DecidableEq

/-- Sign-boundary splitting step of generate_horary_table: compute
`next_boundary = (int(abs_start / 30) + 1) * 30`, and when it falls strictly
below `abs_end - 0.000001` split the sub interval into two parts, otherwise
keep the single interval. -/
def sub_intervals (abs_start abs_end : ℚ) : List (ℚ × ℚ) :=
  let next_boundary : ℚ := (pytrunc (abs_start / 30) + 1 : ℤ) * 30
  if next_boundary < abs_end - 1 / 1000000 then
    [(abs_start, next_boundary), (next_boundary, abs_end)]
  else
    [(abs_start, abs_end)]

/-- Table entry built by generate_horary_table for one interval of the sub
`sub_i` of nakshatra `nak_index`: the sign is taken from the interval's
midpoint, the star lord from the nakshatra, the sub lord from the Vimshottari
walk. -/
def horary_entry (nak_index sub_i : ℕ) (iv : ℚ × ℚ) : HoraryEntry :=
  let star_lord := NAKSHATRAS.getD nak_index .Ketu
  let start_sub_index := VIMSHOTTARI_ORDER.indexOf star_lord
  let mid_point := (iv.1 + iv.2) / 2
  let sign_index := (pytrunc (mid_point / 30)).toNat % 12
  ⟨iv.1, iv.2, ZODIAC_SIGNS.getD sign_index .Mars, star_lord,
    sub_planet start_sub_index sub_i⟩

/-- Entries generated for sub `sub_i` of nakshatra `nak_index`: the absolute
sub interval starts at `nak_start + sub_position` (the source's running
accumulator, equal to the sum of the spans of the previous subs) and spans
`sub_span`; it is then split at a straddled sign boundary. -/
def horary_sub_entries (nak_index sub_i : ℕ) : List HoraryEntry :=
  let star_lord := NAKSHATRAS.getD nak_index .Ketu
  let start_sub_index := VIMSHOTTARI_ORDER.indexOf star_lord
  let nak_start : ℚ := nak_index * NAKSHATRA_SPAN
  let abs_start := nak_start + sub_position start_sub_index sub_i
  let abs_end := abs_start + sub_span_q (sub_planet start_sub_index sub_i)
  (sub_intervals abs_start abs_end).map (horary_entry nak_index sub_i)

/-- generate_horary_table from `app/services/horary.py`: walk the 27
nakshatras and, inside each, the 9 subs in Vimshottari order starting from the
nakshatra lord, splitting any sub interval that straddles a sign boundary.
Entry number `n` (1-based, `current_horary` in the source) is element `n - 1`
of this list.  The process-wide caching (`HORARY_TABLE` global) is state
handling outside this pure embedding; this is the value the first build
produces and every later access returns. -/
def generate_horary_table : List HoraryEntry :=
  (List.range 27).flatMap fun nak_index =>
    (List.range 9).flatMap fun sub_i => horary_sub_entries nak_index sub_i

/-- Pairwise contiguity check: each entry's end longitude equals the next
entry's start longitude. -/
def contiguousCheck : List HoraryEntry → Bool
  | a :: b :: rest =>
    (decide (a.end_longitude = b.start_longitude)) && contiguousCheck (b :: rest)
  | _ => true

/-- Check that no entry extends past the first multiple of 30 degrees
following its start (so no entry crosses a sign boundary). -/
def noSignCrossCheck (l : List HoraryEntry) : Bool :=
  l.all fun e => e.end_longitude ≤ ((pytrunc (e.start_longitude / 30) + 1 : ℤ) * 30 : ℚ)

/-- Shortest-path angular difference `_angular_difference` from
`app/services/horary.py`: `abs(a - b)`, folded to at most 180 degrees. -/
def angular_difference (a b : ℚ) : ℚ :=
  let diff := |a - b|
  if 180 < diff then 360 - diff else diff

/-- Forward-arc membership `_is_between_angles` from `app/services/horary.py`. -/
def is_between_angles (target s e : ℚ) : Bool :=
  if s ≤ e then decide (s ≤ target ∧ target ≤ e)
  else decide (s ≤ target ∨ target ≤ e)

/-- Stand-in for Python's `float('inf')`, the initial `best_diff` of
`_binary_search_ascendant`: every angular difference produced by
`angular_difference` is at most 180 (see `angular_difference_le`), so any
bound above 180 gives exactly the same comparisons as the float infinity. -/
def DIFF_INF : ℚ := 1000000

/-- Final state of `_binary_search_ascendant` from `app/services/horary.py`:
the returned value together with the loop diagnostics (final best distance,
final bracket, number of loop iterations executed). -/
structure SearchResult where
  result : Option ℤ
  best_diff : ℚ
  low : ℤ
  high : ℤ
  iterations : ℕ
deriving DecidableEq

/-- Best-match update step of `_binary_search_ascendant`: the source's three
sequential `if diff_x < best_diff` comparisons against the low, mid and high
samples, in order; returns the updated `(best_match, best_diff)` pair. -/
def search_best3 (asc : ℤ → ℚ) (target : ℚ) (low high : ℤ)
    (best_match : Option ℤ) (best_diff : ℚ) : Option ℤ × ℚ :=
  let mid := (low + high).fdiv 2
  let diff_low := angular_difference target (asc low)
  let diff_mid := angular_difference target (asc mid)
  let diff_high := angular_difference target (asc high)
  let bm1 := if diff_low < best_diff then some low else best_match
  let bd1 := if diff_low < best_diff then diff_low else best_diff
  let bm2 := if diff_mid < bd1 then some mid else bm1
  let bd2 := if diff_mid < bd1 then diff_mid else bd1
  let bm3 := if diff_high < bd2 then some high else bm2
  let bd3 := if diff_high < bd2 then diff_high else bd2
  (bm3, bd3)

/-- Bracket refinement step of `_binary_search_ascendant`: narrow toward the
half that brackets the target, falling back to a window around the best
match for the wrap-around case.  When the loop reaches this point
`best_match` is always `some` (the first iteration sets it, every angular
difference being below `DIFF_INF`); on `none` the source would raise a
`TypeError` on `None - quarter`, and the embedding keeps the bracket. -/
def search_bracket (asc : ℤ → ℚ) (target : ℚ) (low high : ℤ)
    (best_match : Option ℤ) : ℤ × ℤ :=
  let mid := (low + high).fdiv 2
  if is_between_angles target (asc low) (asc mid) then (low, mid)
  else if is_between_angles target (asc mid) (asc high) then (mid, high)
  else
    let quarter := (high - low).fdiv 4
    if best_match = some low then (low, low + quarter * 2)
    else if best_match = some high then (high - quarter * 2, high)
    else
      match best_match with
      | some b => (max 0 (b - quarter), min 86399 (b + quarter))
      | none => (low, high)

/-- Final filter of `_binary_search_ascendant`: after the loop, return
`best_match` only when it exists and `best_diff < 0.5`, else `None`. -/
def search_finish (best_match : Option ℤ) (best_diff : ℚ) : Option ℤ :=
  match best_match with
  | some b => if best_diff < 1 / 2 then some b else none
  | none => none

/-- Loop of `_binary_search_ascendant` from `app/services/horary.py`.

The ascendant evaluation `_get_ascendant_at_time(year, month, day, h, m, s,
latitude, longitude, timezone)` — trigonometry over the date and location —
is abstracted as the oracle `asc : ℤ → ℚ`, mapping seconds from midnight to
the ascendant; every date and location instantiates some oracle.

`fuel` counts the remaining loop turns: the source guard
`iterations < max_iterations` with `max_iterations = 50` corresponds to
`fuel = 50 - iterations` at loop entry, and `iterations` is carried
explicitly so the final state reports the count.  The in-loop exact-match
return (`best_diff < 0.01`) returns `best_match` directly, bypassing the
final filter; on normal loop exit `search_finish` applies the source's
`best_diff < 0.5` filter. -/
def searchGo (asc : ℤ → ℚ) (target : ℚ) (precision : ℤ) :
    (fuel : ℕ) → (low high : ℤ) → (best_match : Option ℤ) → (best_diff : ℚ) →
    (iterations : ℕ) → SearchResult
  | 0, low, high, best_match, best_diff, iterations =>
    ⟨search_finish best_match best_diff, best_diff, low, high, iterations⟩
  | fuel + 1, low, high, best_match, best_diff, iterations =>
    if precision < high - low then
      let b3 := search_best3 asc target low high best_match best_diff
      if b3.2 < 1 / 100 then
        ⟨b3.1, b3.2, low, high, iterations + 1⟩
      else
        let lh := search_bracket asc target low high b3.1
        searchGo asc target precision fuel lh.1 lh.2 b3.1 b3.2 (iterations + 1)
    else
      ⟨search_finish best_match best_diff, best_diff, low, high, iterations⟩

/-- The full `_binary_search_ascendant` body: run the loop from the given
bracket with no best match yet and an infinite best distance. -/
def binary_search_ascendant (asc : ℤ → ℚ) (target : ℚ)
    (low high : ℤ) (precision : ℤ) : SearchResult :=
  searchGo asc target precision 50 low high none DIFF_INF 0

/-- date_to_julian_day from `app/services/astronomy.py`: convert local civil
time to UT (subtract the offset), apply the Jan/Feb year-month carry, and use
the standard Gregorian Julian Day formula.  Note the source applies the
Gregorian correction `B = 2 - A + int(A / 4)` for every date — there is no
Julian-calendar branch on the forward conversion. -/
def date_to_julian_day (year month day : ℤ) (hour minute : ℤ) (second : ℚ)
    (timezone_offset : ℚ) : ℚ :=
  let decimal_hour : ℚ := hour + minute / 60 + second / 3600 - timezone_offset
  let day_fraction := decimal_hour / 24
  let year' : ℤ := if month ≤ 2 then year - 1 else year
  let month' : ℤ := if month ≤ 2 then month + 12 else month
  let A := pytrunc ((year' : ℚ) / 100)
  let B := 2 - A + pytrunc ((A : ℚ) / 4)
  let jd : ℚ := (pytrunc (365.25 * ((year' : ℚ) + 4716)) : ℚ)
      + (pytrunc (30.6001 * ((month' : ℚ) + 1)) : ℚ) + day + B - 1524.5
  jd + day_fraction

/-- julian_day_to_date from `app/services/astronomy.py`: the inverse
conversion, including the Julian/Gregorian switch test at `Z < 2299161`. -/
def julian_day_to_date (jd : ℚ) : ℤ × ℤ × ℤ × ℚ :=
  let jd := jd + 0.5
  let Z := pytrunc jd
  let F := jd - Z
  let A := if Z < 2299161 then Z
    else
      let alpha := pytrunc (((Z : ℚ) - 1867216.25) / 36524.25)
      Z + 1 + alpha - pytrunc ((alpha : ℚ) / 4)
  let B := A + 1524
  let C := pytrunc (((B : ℚ) - 122.1) / 365.25)
  let D := pytrunc (365.25 * (C : ℚ))
  let E := pytrunc (((B : ℚ) - (D : ℚ)) / 30.6001)
  let day := B - D - pytrunc (30.6001 * (E : ℚ))
  let month := if E < 14 then E - 1 else E - 13
  let year := if 2 < month then C - 4716 else C - 4715
  let decimal_hour := F * 24
  (year, month, day, decimal_hour)

/-- Leap-year test used by julian_day_to_year_fraction in
`app/services/ayanamsa.py`:
`(year % 4 == 0 and year % 100 != 0) or (year % 400 == 0)`. -/
def is_leap_year (year : ℤ) : Bool :=
  (year % 4 == 0 && year % 100 != 0) || year % 400 == 0

/-- julian_day_to_year_fraction from `app/services/ayanamsa.py`: the calendar
year of the instant plus the elapsed fraction of that year, with a leap-aware
365/366-day denominator. -/
def julian_day_to_year_fraction (jd : ℚ) : ℚ :=
  let r := julian_day_to_date jd
  let year := r.1
  let jan1_jd := date_to_julian_day year 1 1 0 0 0 0
  let day_of_year := jd - jan1_jd
  let days_in_year : ℚ := if is_leap_year year then 366 else 365
  (year : ℚ) + day_of_year / days_in_year

/-- BASE_NEW_AYANAMSA from `app/services/ayanamsa.py`: 22 deg 22 min 15.7 sec. -/
def BASE_NEW_AYANAMSA : ℚ := 22 + 22 / 60 + 15.7 / 3600

/-- BASE_OLD_AYANAMSA from `app/services/ayanamsa.py`: 22 deg 22 min 0 sec. -/
def BASE_OLD_AYANAMSA : ℚ := 22 + 22 / 60 + 0 / 3600

/-- PRECESSION_RATE from `app/services/ayanamsa.py` (arc-seconds per year). -/
def PRECESSION_RATE : ℚ := 50.2388475

/-- ANNUAL_ADJUSTMENT from `app/services/ayanamsa.py`. -/
def ANNUAL_ADJUSTMENT : ℚ := 0.000111

/-- calculate_kp_new_ayanamsa from `app/services/ayanamsa.py`. -/
def calculate_kp_new_ayanamsa (jd : ℚ) : ℚ :=
  let t := julian_day_to_year_fraction jd - 1900
  let precession_arcsec := t * PRECESSION_RATE + t * t * ANNUAL_ADJUSTMENT
  BASE_NEW_AYANAMSA + precession_arcsec / 3600

/-- calculate_kp_old_ayanamsa from `app/services/ayanamsa.py`. -/
def calculate_kp_old_ayanamsa (jd : ℚ) : ℚ :=
  let t := julian_day_to_year_fraction jd - 1900
  let precession_arcsec := t * PRECESSION_RATE + t * t * ANNUAL_ADJUSTMENT
  BASE_OLD_AYANAMSA + precession_arcsec / 3600

/-- ASCII lower-casing of one character, as Python's `str.lower` acts on the
ASCII mode strings the ayanamsa dispatcher receives. -/
def py_lower_char (c : Char) : Char :=
  if 'A' ≤ c ∧ c ≤ 'Z' then Char.ofNat (c.toNat + 32) else c

/-- Python `ayanamsa_type.lower()` for the ASCII mode strings. -/
def py_lower (s : String) : String := ⟨s.data.map py_lower_char⟩

/-- calculate_ayanamsa from `app/services/ayanamsa.py`: lower-case the mode
string; `"manual"` returns the caller-supplied value (raising `ValueError`,
modelled as `Except.error`, when none is supplied), `"old"` the KSK value,
and every other string falls through to the KP New (Balachandran) value. -/
def calculate_ayanamsa (jd : ℚ) (ayanamsa_type : String)
    (manual_value : Option ℚ) : Except String (ℚ × String) :=
  let ayanamsa_type := py_lower ayanamsa_type
  if ayanamsa_type = "manual" then
    match manual_value with
    | none => .error "manual_ayanamsa value is required when ayanamsa_type is manual"
    | some v => .ok (v, "Manual")
  else if ayanamsa_type = "old" then
    .ok (calculate_kp_old_ayanamsa jd, "KP Old (KSK)")
  else
    .ok (calculate_kp_new_ayanamsa jd, "KP New (Balachandran)")

/-- DashaPeriod from `app/services/dasha.py`.  Python datetimes are modelled
as rational day counts (a `timedelta(days = d)` is addition of `d`). -/
structure DashaPeriod where
  planet : Planet
  start_date : ℚ
  end_date : ℚ
  duration_years : ℚ
  duration_days : ℤ
deriving DecidableEq

/-- Result dictionary of calculate_dasha_balance from `app/services/dasha.py`
(the fields the claims use).  `nakshatra_index` is the 1-based index the
source returns. -/
structure DashaBalance where
  birth_dasha_lord : Planet
  balance_years : ℚ
  balance_days : ℤ
  dasha_start_date : ℚ
  dasha_end_date : ℚ
  nakshatra_index : ℤ
  position_in_nakshatra : ℚ
deriving DecidableEq

/-- calculate_dasha_balance from `app/services/dasha.py`.  The source indexes
`NAKSHATRAS[nakshatra_index]` with the raw `int(moon_longitude /
NAKSHATRA_SPAN)` (reset to 0 only at 27 and above); the claims only exercise
longitudes in `[0, 360)`, where that index is in `0..26`. -/
def calculate_dasha_balance (moon_longitude : ℚ) (birth_datetime : ℚ) :
    DashaBalance :=
  let nakshatra_index : ℤ :=
    let i := pytrunc (moon_longitude / NAKSHATRA_SPAN)
    if 27 ≤ i then 0 else i
  let nakshatra_lord := NAKSHATRAS.getD nakshatra_index.toNat .Ketu
  let nakshatra_start := (nakshatra_index : ℚ) * NAKSHATRA_SPAN
  let position_in_nakshatra := moon_longitude - nakshatra_start
  let balance_frac := (NAKSHATRA_SPAN - position_in_nakshatra) / NAKSHATRA_SPAN
  let dasha_period_years := VIMSHOTTARI_PERIODS nakshatra_lord
  let balance_years := balance_frac * dasha_period_years
  let balance_days := pytrunc (balance_years * 365.25)
  let dasha_end_date := birth_datetime + balance_days
  let elapsed_years := dasha_period_years - balance_years
  let elapsed_days := pytrunc (elapsed_years * 365.25)
  let dasha_start_date := birth_datetime - elapsed_days
  ⟨nakshatra_lord, pyRound 4 balance_years, balance_days,
   dasha_start_date, dasha_end_date, nakshatra_index + 1,
   pyRound 6 position_in_nakshatra⟩

/-- Loop of calculate_antardasha_periods from `app/services/dasha.py`:
`fuel` counts the remaining turns of `for i in range(9)` (entered with
`fuel = 9 - i`); each turn emits one child period and advances
`current_date` by the whole-day truncation of the child's duration. -/
def antardashaLoop (start_index : ℕ) (md_duration_years : ℚ) :
    (fuel i : ℕ) → (current_date : ℚ) → List DashaPeriod
  | 0, _, _ => []
  | fuel + 1, i, current_date =>
    let planet := sub_planet start_index i
    let planet_period := VIMSHOTTARI_PERIODS planet
    let ad_duration_years := md_duration_years * planet_period / TOTAL_DASHA_YEARS
    let ad_duration_days := pytrunc (ad_duration_years * 365.25)
    let end_date := current_date + ad_duration_days
    ⟨planet, current_date, end_date, pyRound 4 ad_duration_years, ad_duration_days⟩
      :: antardashaLoop start_index md_duration_years fuel (i + 1) end_date

/-- calculate_antardasha_periods from `app/services/dasha.py`: nine children
in Vimshottari order starting from the Mahadasha lord, chained from the
Mahadasha's start date. -/
def calculate_antardasha_periods (mahadasha : DashaPeriod) : List DashaPeriod :=
  antardashaLoop (VIMSHOTTARI_ORDER.indexOf mahadasha.planet)
    mahadasha.duration_years 9 0 mahadasha.start_date

/-- Loop of calculate_pratyantardasha_periods from `app/services/dasha.py`:
same shape as the Antardasha loop, except the day count is forced to at
least one (`max(1, int(...))`). -/
def pratyantardashaLoop (start_index : ℕ) (ad_duration_years : ℚ) :
    (fuel i : ℕ) → (current_date : ℚ) → List DashaPeriod
  | 0, _, _ => []
  | fuel + 1, i, current_date =>
    let planet := sub_planet start_index i
    let planet_period := VIMSHOTTARI_PERIODS planet
    let pad_duration_years := ad_duration_years * planet_period / TOTAL_DASHA_YEARS
    let pad_duration_days := max 1 (pytrunc (pad_duration_years * 365.25))
    let end_date := current_date + pad_duration_days
    ⟨planet, current_date, end_date, pyRound 4 pad_duration_years, pad_duration_days⟩
      :: pratyantardashaLoop start_index ad_duration_years fuel (i + 1) end_date

/-- calculate_pratyantardasha_periods from `app/services/dasha.py`. -/
def calculate_pratyantardasha_periods (antardasha : DashaPeriod) : List DashaPeriod :=
  pratyantardashaLoop (VIMSHOTTARI_ORDER.indexOf antardasha.planet)
    antardasha.duration_years 9 0 antardasha.start_date

/-- Loop of calculate_sookshma_dasha_periods from `app/services/dasha.py`:
the end date advances by the fractional day count `total_days` (the source
passes the float to `timedelta`), the stored day count is its truncation
(clamped up from below one to zero), and the stored years are rounded to six
decimals. -/
def sookshmaLoop (start_index : ℕ) (pad_duration_years : ℚ) :
    (fuel i : ℕ) → (current_date : ℚ) → List DashaPeriod
  | 0, _, _ => []
  | fuel + 1, i, current_date =>
    let planet := sub_planet start_index i
    let planet_period := VIMSHOTTARI_PERIODS planet
    let sd_duration_years := pad_duration_years * planet_period / TOTAL_DASHA_YEARS
    let total_days := sd_duration_years * 365.25
    let duration_days := pytrunc total_days
    let duration_days := if duration_days < 1 then 0 else duration_days
    let end_date := current_date + total_days
    ⟨planet, current_date, end_date, pyRound 6 sd_duration_years, duration_days⟩
      :: sookshmaLoop start_index pad_duration_years fuel (i + 1) end_date

/-- calculate_sookshma_dasha_periods from `app/services/dasha.py`. -/
def calculate_sookshma_dasha_periods (pratyantardasha : DashaPeriod) : List DashaPeriod :=
  sookshmaLoop (VIMSHOTTARI_ORDER.indexOf pratyantardasha.planet)
    pratyantardasha.duration_years 9 0 pratyantardasha.start_date

/-- Modelled from the spec: `rotate_house_cusps` is imported by
`app/api/routes.py` from `app.services.houses`, but no definition of it
exists under src/ — only this call site.  Spec section 4.4 (house rotation,
horary variant): given the rotation offset
`horary_ascendant - astronomical_ascendant`, add this single offset to all
twelve cusps and renormalize each. -/
def rotate_house_cusps (cusps : List ℚ) (offset : ℚ) : List ℚ :=
  cusps.map fun c => normalize_longitude (c + offset)

/-- Vimshottari start index of the star containing a longitude: the source
locals `star_lord = NAKSHATRAS[star_index]["lord"]` and
`start_index = VIMSHOTTARI_ORDER.index(star_lord)` of `get_sub_lord`. -/
def star_start_index (longitude : ℚ) : ℕ :=
  VIMSHOTTARI_ORDER.indexOf
    (NAKSHATRAS.getD (star_index_of (normalize_longitude longitude)) .Ketu)

/-- The source local `position_in_star` of `get_sub_lord`: offset of the
normalized longitude inside its star. -/
def position_in_star_of (longitude : ℚ) : ℚ :=
  normalize_longitude longitude -
    (star_index_of (normalize_longitude longitude) : ℚ) * NAKSHATRA_SPAN

/-- Modelled from the spec (section 3 Instant, section 4.1): the valid
proleptic-Gregorian calendar fields the Julian Day round-trip claim
quantifies over.  The leap rule matches the source's `is_leap_year` test in
`app/services/ayanamsa.py`. -/
def days_in_month (year month : ℤ) : ℤ :=
  if month = 2 then (if is_leap_year year then 29 else 28)
  else if month = 4 ∨ month = 6 ∨ month = 9 ∨ month = 11 then 30
  else 31

/-- Modelled from the spec: a valid calendar date. -/
def validDate (year month day : ℤ) : Prop :=
  1 ≤ month ∧ month ≤ 12 ∧ 1 ≤ day ∧ day ≤ days_in_month year month

/-- Modelled from the spec: a valid time of day; the seconds are a real
(rational) value below 60. -/
def validTime (hour minute : ℤ) (second : ℚ) : Prop :=
  0 ≤ hour ∧ hour ≤ 23 ∧ 0 ≤ minute ∧ minute ≤ 59 ∧ 0 ≤ second ∧ second < 60

/-- Dates on or after the Gregorian cutover day 1582-10-15 (the first date
whose noon-rounded Julian Day reaches 2299161). -/
def onOrAfterCutover (year month day : ℤ) : Prop :=
  1583 ≤ year ∨ (year = 1582 ∧ (11 ≤ month ∨ (month = 10 ∧ 15 ≤ day)))

/-- Contiguity checker bridging: a true `contiguousCheck` gives the
index-wise adjacency of ends and starts. -/
theorem contiguousCheck_getD (d : HoraryEntry) :
    ∀ (l : List HoraryEntry), contiguousCheck l = true →
    ∀ n : ℕ, n + 1 < l.length →
      (l.getD n d).end_longitude = (l.getD (n + 1) d).start_longitude := by
  intro l
  induction l with
  | nil => intro _ n h; simp at h
  | cons a t ih =>
    intro hc n h
    cases t with
    | nil => simp at h
    | cons b t' =>
      have hc' := hc
      unfold contiguousCheck at hc'
      rw [Bool.and_eq_true, decide_eq_true_iff] at hc'
      cases n with
      | zero => simpa using hc'.1
      | succ m =>
        have := ih hc'.2 m (by simpa using h)
        simpa using this

/-- C1: the horary table, built by `generate_horary_table`, has exactly 249
entries (numbered 1..249 by position); the entries are contiguous in
longitude — each entry's end longitude is the next entry's start longitude,
and the last entry's end wraps modulo 360 to the first entry's start — and
no entry extends past the first multiple of 30 degrees after its start, so
no entry crosses a sign boundary. -/
theorem C1_horary_table_partition :
    generate_horary_table.length = 249 ∧
    (∀ n : ℕ, n + 1 < generate_horary_table.length →
      (generate_horary_table.getD n ⟨0, 0, .Mars, .Ketu, .Ketu⟩).end_longitude =
        (generate_horary_table.getD (n + 1) ⟨0, 0, .Mars, .Ketu, .Ketu⟩).start_longitude) ∧
    normalize_longitude
        ((generate_horary_table.getD 248 ⟨0, 0, .Mars, .Ketu, .Ketu⟩).end_longitude) =
      (generate_horary_table.getD 0 ⟨0, 0, .Mars, .Ketu, .Ketu⟩).start_longitude ∧
    (∀ e ∈ generate_horary_table,
      e.end_longitude ≤ ((pytrunc (e.start_longitude / 30) + 1 : ℤ) * 30 : ℚ)) := by
  refine ⟨by decide, contiguousCheck_getD _ _ (by decide), by decide, ?_⟩
  intro e he
  have h : noSignCrossCheck generate_horary_table = true := by decide
  unfold noSignCrossCheck at h
  rw [List.all_eq_true] at h
  exact of_decide_eq_true (h e he)
/-- Every sub span is positive. -/
theorem sub_span_q_pos (p : Planet) : 0 < sub_span_q p := by
  cases p <;> decide

/-- Empty prefix of the accumulator. -/
theorem sub_position_zero (s : ℕ) : sub_position s 0 = 0 := by
  simp [sub_position]

/-- One accumulator step: the boundary after sub `i` is the boundary before
it plus the span of sub `i`. -/
theorem sub_position_succ (s i : ℕ) :
    sub_position s (i + 1) = sub_position s i + sub_span_q (sub_planet s i) := by
  simp [sub_position, List.range_succ]

/-- Accumulator boundaries are monotone. -/
theorem sub_position_mono (s : ℕ) : Monotone (sub_position s) := by
  apply monotone_nat_of_le_succ
  intro n
  rw [sub_position_succ]
  have := sub_span_q_pos (sub_planet s n)
  linarith

/-- Generalized loop invariant for `findSub`: entering the loop at sub `j`
with the matching accumulator value, while the searched window is sub `i`
further on, the loop lands on sub `i`. -/
theorem findSub_go (s : ℕ) (p : ℚ) {i : ℕ} (hi : i < 9)
    (hlo : sub_position s i ≤ p) (hhi : p < sub_position s (i + 1)) :
    ∀ m j, j + m = i →
      findSub s p (9 - j) j (sub_position s j) =
        some (sub_planet s i, sub_position s i, sub_position s (i + 1)) := by
  intro m
  induction m with
  | zero =>
    intro j hj
    have hj' : j = i := by omega
    subst hj'
    have h9 : 9 - j = (8 - j) + 1 := by omega
    rw [h9]
    show (if p < sub_position s j + sub_span_q (sub_planet s j) then _ else _) = _
    rw [← sub_position_succ, if_pos hhi, sub_position_succ]
  | succ n ihn =>
    intro j hj
    have hjlt : j < i := by omega
    have h9 : 9 - j = (9 - (j + 1)) + 1 := by omega
    rw [h9]
    show (if p < sub_position s j + sub_span_q (sub_planet s j) then _ else _) = _
    rw [← sub_position_succ]
    have hge : sub_position s (j + 1) ≤ p :=
      le_trans (sub_position_mono s hjlt) hlo
    rw [if_neg (by linarith)]
    exact ihn (j + 1) (by omega)

/-- The `findSub` walk started from the top finds the window containing `p`. -/
theorem findSub_window (s : ℕ) (p : ℚ) {i : ℕ} (hi : i < 9)
    (hlo : sub_position s i ≤ p) (hhi : p < sub_position s (i + 1)) :
    findSub s p 9 0 0 =
      some (sub_planet s i, sub_position s i, sub_position s (i + 1)) := by
  have := findSub_go s p hi hlo hhi i 0 (by omega)
  simpa [sub_position_zero] using this

/-- A point below boundary `n` lies in some window before `n`. -/
theorem exists_sub_window (s : ℕ) (p : ℚ) (h0 : 0 ≤ p) :
    ∀ n : ℕ, p < sub_position s n →
      ∃ i < n, sub_position s i ≤ p ∧ p < sub_position s (i + 1) := by
  intro n
  induction n with
  | zero => intro h; rw [sub_position_zero] at h; linarith
  | succ m ih =>
    intro h
    by_cases hm : p < sub_position s m
    · obtain ⟨i, hi, hw⟩ := ih hm
      exact ⟨i, Nat.lt_succ_of_lt hi, hw⟩
    · push_neg at hm
      exact ⟨m, Nat.lt_succ_self m, hm, h⟩

/-- For every start index used by the resolver the nine spans exactly fill
the nakshatra span (the Vimshottari periods sum to 120). -/
theorem sub_position_nine : ∀ s < 9, sub_position s 9 = NAKSHATRA_SPAN := by decide

/-- Each planet appears in the Vimshottari order within the first nine
positions. -/
theorem indexOf_lt_nine (p : Planet) : VIMSHOTTARI_ORDER.indexOf p < 9 := by
  cases p <;> decide

/-- Value of `normalize_longitude` is in `[0, 360)`. -/
theorem normalize_longitude_mem (x : ℚ) :
    0 ≤ normalize_longitude x ∧ normalize_longitude x < 360 := by
  unfold normalize_longitude
  have h1 : (⌊x / 360⌋ : ℚ) ≤ x / 360 := Int.floor_le _
  have h2 : x / 360 < ⌊x / 360⌋ + 1 := Int.lt_floor_add_one _
  constructor <;> [linarith; linarith]

/-- In-range longitudes are fixed by `normalize_longitude`. -/
theorem normalize_longitude_eq_self {x : ℚ} (h0 : 0 ≤ x) (h1 : x < 360) :
    normalize_longitude x = x := by
  unfold normalize_longitude
  have hz : ⌊x / 360⌋ = 0 := by
    rw [Int.floor_eq_zero_iff]
    constructor
    · positivity
    · rw [div_lt_one (by norm_num)]; exact h1
  rw [hz]
  ring

/-- Characterization of the star index for a normalized longitude. -/
theorem star_index_of_spec {L : ℚ} (h0 : 0 ≤ L) (h1 : L < 360) :
    star_index_of L < 27 ∧
    (star_index_of L : ℚ) * NAKSHATRA_SPAN ≤ L ∧
    L < ((star_index_of L : ℚ) + 1) * NAKSHATRA_SPAN := by
  have hsp : (0 : ℚ) < NAKSHATRA_SPAN := by norm_num [NAKSHATRA_SPAN]
  have hq : 0 ≤ L / NAKSHATRA_SPAN := div_nonneg h0 hsp.le
  have hpt : pytrunc (L / NAKSHATRA_SPAN) = ⌊L / NAKSHATRA_SPAN⌋ := if_pos hq
  have hm0 : 0 ≤ ⌊L / NAKSHATRA_SPAN⌋ := Int.floor_nonneg.mpr hq
  have hmle : (⌊L / NAKSHATRA_SPAN⌋ : ℚ) ≤ L / NAKSHATRA_SPAN := Int.floor_le _
  have hmlt : L / NAKSHATRA_SPAN < ⌊L / NAKSHATRA_SPAN⌋ + 1 := Int.lt_floor_add_one _
  have hm27 : ⌊L / NAKSHATRA_SPAN⌋ < 27 := by
    by_contra hcon
    push_neg at hcon
    have h27 : (27 : ℚ) ≤ L / NAKSHATRA_SPAN := by
      calc (27 : ℚ) ≤ (⌊L / NAKSHATRA_SPAN⌋ : ℚ) := by exact_mod_cast hcon
        _ ≤ L / NAKSHATRA_SPAN := hmle
    rw [le_div_iff₀ hsp] at h27
    norm_num [NAKSHATRA_SPAN] at h27
    linarith
  have hcast : ((⌊L / NAKSHATRA_SPAN⌋.toNat : ℕ) : ℚ) = ((⌊L / NAKSHATRA_SPAN⌋ : ℤ) : ℚ) := by
    exact_mod_cast Int.toNat_of_nonneg hm0
  have hix : star_index_of L = ⌊L / NAKSHATRA_SPAN⌋.toNat := by
    unfold star_index_of
    rw [hpt, if_neg]
    omega
  rw [hix]
  refine ⟨by omega, ?_, ?_⟩
  · rw [hcast, ← le_div_iff₀ hsp]
    exact hmle
  · rw [hcast, ← div_lt_iff₀ hsp]
    exact hmlt

/-- Rounding an integer-scaled value moves it by at most one half. -/
theorem pyRoundInt_close (q : ℚ) : |(pyRoundInt q : ℚ) - q| ≤ 1 / 2 := by
  unfold pyRoundInt
  have h1 : (⌊q⌋ : ℚ) ≤ q := Int.floor_le q
  have h2 : q < ⌊q⌋ + 1 := Int.lt_floor_add_one q
  simp only []
  split_ifs with hc1 hc2 hc3 <;> rw [abs_le] <;> constructor <;> push_cast <;> linarith

/-- Python rounding to `n` decimals moves a value by at most half of the last
decimal place. -/
theorem pyRound_close (n : ℕ) (x : ℚ) : |pyRound n x - x| ≤ 1 / (2 * 10 ^ n) := by
  unfold pyRound
  have hp : (0 : ℚ) < 10 ^ n := by positivity
  have hkey : (pyRoundInt (x * 10 ^ n) : ℚ) / 10 ^ n - x =
      ((pyRoundInt (x * 10 ^ n) : ℚ) - x * 10 ^ n) / 10 ^ n := by
    field_simp
    ring
  rw [hkey, abs_div, abs_of_pos hp, div_le_iff₀ hp]
  calc |(pyRoundInt (x * 10 ^ n) : ℚ) - x * 10 ^ n| ≤ 1 / 2 := pyRoundInt_close _
    _ = 1 / (2 * 10 ^ n) * 10 ^ n := by field_simp

/-- Full characterization of the sub-lord selection: for every longitude the
walk selects the window of the star's partition that contains
`position_in_star`. -/
theorem get_sub_lord_full_spec (L : ℚ) :
    ∃ i < 9,
      get_sub_lord_full L =
        ⟨sub_planet (star_start_index L) i, sub_position (star_start_index L) i,
          sub_position (star_start_index L) (i + 1), position_in_star_of L⟩ ∧
      sub_position (star_start_index L) i ≤ position_in_star_of L ∧
      position_in_star_of L < sub_position (star_start_index L) (i + 1) := by
  obtain ⟨h0, h1⟩ := normalize_longitude_mem L
  obtain ⟨hk27, hklo, hkhi⟩ := star_index_of_spec h0 h1
  have hs9 : star_start_index L < 9 := indexOf_lt_nine _
  have hpos0 : 0 ≤ position_in_star_of L := by
    unfold position_in_star_of
    linarith
  have hposS : position_in_star_of L < NAKSHATRA_SPAN := by
    unfold position_in_star_of
    linarith
  have hcover : position_in_star_of L < sub_position (star_start_index L) 9 := by
    rw [sub_position_nine _ hs9]
    exact hposS
  obtain ⟨i, hi9, hlo, hhi⟩ := exists_sub_window (star_start_index L) _ hpos0 9 hcover
  refine ⟨i, hi9, ?_, hlo, hhi⟩
  have hfind := findSub_window (star_start_index L) (position_in_star_of L) hi9 hlo hhi
  show (match findSub (star_start_index L) (position_in_star_of L) 9 0 0 with
    | some (p, a, b) => SubLordResult.mk p a b (position_in_star_of L)
    | none => SubLordResult.mk (sub_planet (star_start_index L) 8) 0 0
        (position_in_star_of L)) = _
  rw [hfind]

/-- C2 (amended): `get_sub_lord` selects the sub lord by the strict `<`
comparison against the running cumulative boundary — so a position exactly on
an interior boundary belongs to the following sub — and the position inside
the selected sub, before the final 6-decimal rounding, lies in
`[0, sub_span)`; the value the function returns is that position rounded to
six decimals, hence within `5 * 10 ^ (-7)` of it.  The cumulative sub spans
partition the star's full span: they start at 0, end at `NAKSHATRA_SPAN`
exactly, and each boundary is the previous one plus the next sub's span. -/
theorem C2_sub_lord_selection :
    ∀ L : ℚ,
    (0 ≤ (get_sub_lord_full L).position_in_star - (get_sub_lord_full L).sub_start ∧
      (get_sub_lord_full L).position_in_star - (get_sub_lord_full L).sub_start <
        (get_sub_lord_full L).sub_end - (get_sub_lord_full L).sub_start) ∧
    get_sub_lord L =
      ((get_sub_lord_full L).lord,
        pyRound 6
          ((get_sub_lord_full L).position_in_star - (get_sub_lord_full L).sub_start)) ∧
    |(get_sub_lord L).2 -
        ((get_sub_lord_full L).position_in_star - (get_sub_lord_full L).sub_start)| ≤
      1 / 2000000 ∧
    (∃ i < 9,
      (get_sub_lord_full L).lord = sub_planet (star_start_index L) i ∧
      (get_sub_lord_full L).sub_start = sub_position (star_start_index L) i ∧
      (get_sub_lord_full L).sub_end = sub_position (star_start_index L) (i + 1)) ∧
    sub_position (star_start_index L) 0 = 0 ∧
    sub_position (star_start_index L) 9 = NAKSHATRA_SPAN ∧
    (∀ i : ℕ, sub_position (star_start_index L) (i + 1) =
      sub_position (star_start_index L) i +
        sub_span_q (sub_planet (star_start_index L) i)) ∧
    (∀ i : ℕ, i + 1 < 9 →
      position_in_star_of L = sub_position (star_start_index L) (i + 1) →
      (get_sub_lord_full L).lord = sub_planet (star_start_index L) (i + 1)) := by
  intro L
  obtain ⟨i, hi9, heq, hlo, hhi⟩ := get_sub_lord_full_spec L
  refine ⟨?_, rfl, ?_, ⟨i, hi9, by rw [heq], by rw [heq], by rw [heq]⟩,
    sub_position_zero _, sub_position_nine _ (indexOf_lt_nine _),
    fun j => sub_position_succ _ j, ?_⟩
  · rw [heq]
    dsimp only
    exact ⟨by linarith, by linarith⟩
  · show |pyRound 6 _ - _| ≤ 1 / 2000000
    have := pyRound_close 6 ((get_sub_lord_full L).position_in_star -
      (get_sub_lord_full L).sub_start)
    calc |pyRound 6 _ - _| ≤ 1 / (2 * 10 ^ 6) := this
      _ = 1 / 2000000 := by norm_num
  · intro j hj hbound
    rcases Nat.lt_trichotomy i (j + 1) with hij | hij | hij
    · exfalso
      have : sub_position (star_start_index L) (i + 1) ≤
          sub_position (star_start_index L) (j + 1) := sub_position_mono _ hij
      rw [← hbound] at this
      linarith
    · rw [heq]
      simp [hij]
    · exfalso
      have h1 : sub_position (star_start_index L) (j + 1 + 1) ≤
          sub_position (star_start_index L) i := sub_position_mono _ hij
      have h2 := sub_position_succ (star_start_index L) (j + 1)
      have h3 := sub_span_q_pos (sub_planet (star_start_index L) (j + 1))
      rw [hbound] at hlo
      linarith

/-- C2 counterexample: at longitude `0.7777777` (inside the first, Ketu, sub
of Ashwini, whose span is `7/9 = 0.777...`), the `position_in_sub` value that
`get_sub_lord` returns — rounded to six decimals as the source stores it —
is `0.777778`, which does NOT lie in `[0, sub_span)` of the selected sub. -/
theorem C2_counterexample_rounded_position :
    (get_sub_lord (7777777 / 10000000)).1 = Planet.Ketu ∧
    (get_sub_lord (7777777 / 10000000)).2 = 388889 / 500000 ∧
    (get_sub_lord_full (7777777 / 10000000)).sub_start = 0 ∧
    (get_sub_lord_full (7777777 / 10000000)).sub_end = 7 / 9 ∧
    ¬ ((get_sub_lord (7777777 / 10000000)).2 < 7 / 9) := by
  exact ⟨by decide, by decide, by decide, by decide, by decide⟩
/-- Accumulator boundaries are nonnegative. -/
theorem sub_position_nonneg (s i : ℕ) : 0 ≤ sub_position s i := by
  have := sub_position_mono s (Nat.zero_le i)
  rwa [sub_position_zero] at this

/-- A point determines its window: two windows containing the same point
coincide. -/
theorem sub_window_unique (s : ℕ) {p : ℚ} {i j : ℕ}
    (hi : sub_position s i ≤ p) (hi' : p < sub_position s (i + 1))
    (hj : sub_position s j ≤ p) (hj' : p < sub_position s (j + 1)) : i = j := by
  rcases Nat.lt_trichotomy i j with h | h | h
  · have := sub_position_mono s (show i + 1 ≤ j from h)
    linarith
  · exact h
  · have := sub_position_mono s (show j + 1 ≤ i from h)
    linarith

/-- The star index is the one whose window contains the longitude. -/
theorem star_index_of_eq {L : ℚ} {k : ℕ} (hk : k < 27)
    (hlo : (k : ℚ) * NAKSHATRA_SPAN ≤ L)
    (hhi : L < ((k : ℚ) + 1) * NAKSHATRA_SPAN) :
    star_index_of L = k := by
  have hsp : (0 : ℚ) < NAKSHATRA_SPAN := by norm_num [NAKSHATRA_SPAN]
  have h0 : 0 ≤ L := le_trans (by positivity) hlo
  have hk27 : ((k : ℚ) + 1) ≤ 27 := by exact_mod_cast hk
  have h360 : L < 360 := by
    have : ((k : ℚ) + 1) * NAKSHATRA_SPAN ≤ 27 * NAKSHATRA_SPAN :=
      mul_le_mul_of_nonneg_right hk27 hsp.le
    have h27 : (27 : ℚ) * NAKSHATRA_SPAN = 360 := by norm_num [NAKSHATRA_SPAN]
    linarith
  obtain ⟨hm27, hmlo, hmhi⟩ := star_index_of_spec h0 h360
  by_contra hne
  rcases Nat.lt_or_ge (star_index_of L) k with hlt | hge
  · have hc : ((star_index_of L : ℚ) + 1) ≤ (k : ℚ) := by exact_mod_cast hlt
    have : ((star_index_of L : ℚ) + 1) * NAKSHATRA_SPAN ≤ (k : ℚ) * NAKSHATRA_SPAN :=
      mul_le_mul_of_nonneg_right hc hsp.le
    linarith
  · have hgt : k < star_index_of L := lt_of_le_of_ne hge (fun h => hne h.symm)
    have hc : ((k : ℚ) + 1) ≤ (star_index_of L : ℚ) := by exact_mod_cast hgt
    have : ((k : ℚ) + 1) * NAKSHATRA_SPAN ≤ (star_index_of L : ℚ) * NAKSHATRA_SPAN :=
      mul_le_mul_of_nonneg_right hc hsp.le
    linarith

/-- Interval pieces produced by the sign-boundary split stay inside the
original sub interval. -/
theorem sub_intervals_bounds {a b : ℚ} (ha : 0 ≤ a) {iv : ℚ × ℚ}
    (h : iv ∈ sub_intervals a b) : a ≤ iv.1 ∧ iv.2 ≤ b := by
  unfold sub_intervals at h
  have hfl : pytrunc (a / 30) = ⌊a / 30⌋ := if_pos (by positivity)
  have hup : a < ((pytrunc (a / 30) + 1 : ℤ) : ℚ) * 30 := by
    rw [hfl]
    have := Int.lt_floor_add_one (a / 30)
    have h30 : (0 : ℚ) < 30 := by norm_num
    rw [← div_lt_iff₀ h30]
    push_cast
    linarith
  simp only [] at h
  split_ifs at h with hc
  · simp only [List.mem_cons, List.mem_singleton, List.not_mem_nil, or_false] at h
    rcases h with h | h
    · subst h
      exact ⟨le_refl a, by linarith⟩
    · subst h
      exact ⟨le_of_lt hup, le_refl b⟩
  · simp only [List.mem_singleton] at h
    subst h
    exact ⟨le_refl a, le_refl b⟩

/-- C9: the generative table walk and the per-longitude resolver agree: for
every entry of `generate_horary_table` and every longitude strictly inside
the entry's interval, `get_sub_lord` returns the entry's stored sub lord and
`get_star` the entry's stored star lord. -/
theorem C9_table_matches_resolver :
    ∀ e ∈ generate_horary_table, ∀ L : ℚ,
      e.start_longitude < L → L < e.end_longitude →
      (get_sub_lord L).1 = e.sub_lord ∧ (get_star L).1 = e.star_lord := by
  intro e he L hL1 hL2
  unfold generate_horary_table at he
  simp only [List.mem_flatMap, List.mem_range] at he
  obtain ⟨k, hk27, i, hi9, hei⟩ := he
  unfold horary_sub_entries at hei
  simp only [] at hei
  rw [List.mem_map] at hei
  obtain ⟨iv, hiv, hee⟩ := hei
  have hsp : (0 : ℚ) < NAKSHATRA_SPAN := by norm_num [NAKSHATRA_SPAN]
  have hs9 : VIMSHOTTARI_ORDER.indexOf (NAKSHATRAS.getD k .Ketu) < 9 :=
    indexOf_lt_nine _
  have hposn := sub_position_nonneg (VIMSHOTTARI_ORDER.indexOf (NAKSHATRAS.getD k .Ketu)) i
  have ha0 : (0 : ℚ) ≤ (k : ℚ) * NAKSHATRA_SPAN +
      sub_position (VIMSHOTTARI_ORDER.indexOf (NAKSHATRAS.getD k .Ketu)) i := by
    positivity
  obtain ⟨hiv1, hiv2⟩ := sub_intervals_bounds ha0 hiv
  have hstart : e.start_longitude = iv.1 := by rw [← hee]; rfl
  have hend : e.end_longitude = iv.2 := by rw [← hee]; rfl
  rw [hstart] at hL1
  rw [hend] at hL2
  have hsucc := sub_position_succ (VIMSHOTTARI_ORDER.indexOf (NAKSHATRAS.getD k .Ketu)) i
  have hle9 : sub_position (VIMSHOTTARI_ORDER.indexOf (NAKSHATRAS.getD k .Ketu)) (i + 1) ≤
      NAKSHATRA_SPAN := by
    have h1 := sub_position_mono (VIMSHOTTARI_ORDER.indexOf (NAKSHATRAS.getD k .Ketu))
      (show i + 1 ≤ 9 from hi9)
    rwa [sub_position_nine _ hs9] at h1
  have hLk : (k : ℚ) * NAKSHATRA_SPAN ≤ L := by linarith
  have hLk1 : L < ((k : ℚ) + 1) * NAKSHATRA_SPAN := by nlinarith
  have hstar : star_index_of L = k := star_index_of_eq hk27 hLk hLk1
  have hL0 : 0 ≤ L := le_trans (by positivity) hLk
  have h360 : L < 360 := by
    have hk1 : ((k : ℚ) + 1) ≤ 27 := by exact_mod_cast hk27
    have h3 : ((k : ℚ) + 1) * NAKSHATRA_SPAN ≤ 27 * NAKSHATRA_SPAN :=
      mul_le_mul_of_nonneg_right hk1 hsp.le
    have h4 : (27 : ℚ) * NAKSHATRA_SPAN = 360 := by norm_num [NAKSHATRA_SPAN]
    linarith
  have hnorm : normalize_longitude L = L := normalize_longitude_eq_self hL0 h360
  have hss : star_start_index L = VIMSHOTTARI_ORDER.indexOf (NAKSHATRAS.getD k .Ketu) := by
    unfold star_start_index
    rw [hnorm, hstar]
  have hp : position_in_star_of L = L - (k : ℚ) * NAKSHATRA_SPAN := by
    unfold position_in_star_of
    rw [hnorm, hstar]
  obtain ⟨j, hj9, heqf, hjlo, hjhi⟩ := get_sub_lord_full_spec L
  rw [hss, hp] at hjlo hjhi
  have hpwin_lo : sub_position (VIMSHOTTARI_ORDER.indexOf (NAKSHATRAS.getD k .Ketu)) i ≤
      L - (k : ℚ) * NAKSHATRA_SPAN := by linarith
  have hpwin_hi : L - (k : ℚ) * NAKSHATRA_SPAN <
      sub_position (VIMSHOTTARI_ORDER.indexOf (NAKSHATRAS.getD k .Ketu)) (i + 1) := by
    linarith
  have hji : j = i := sub_window_unique _ hjlo hjhi hpwin_lo hpwin_hi
  subst hji
  constructor
  · show (get_sub_lord_full L).lord = e.sub_lord
    rw [heqf, ← hee, hss]
    rfl
  · show NAKSHATRAS.getD (star_index_of (normalize_longitude L)) .Ketu = e.star_lord
    rw [hnorm, hstar, ← hee]
    rfl

/-- Witness for C9 at the first table entry and the longitude one half. -/
theorem C9_table_matches_resolver_witness :
    (get_sub_lord (1 / 2)).1 = Planet.Ketu ∧ (get_star (1 / 2)).1 = Planet.Ketu :=
  C9_table_matches_resolver ⟨0, 7 / 9, .Mars, .Ketu, .Ketu⟩ (by decide) (1 / 2)
    (by decide) (by decide)
/-- Element-wise description of the rotation. -/
theorem rotate_house_cusps_getD (cusps : List ℚ) (off : ℚ) (i : ℕ)
    (hi : i < cusps.length) :
    (rotate_house_cusps cusps off).getD i 0 =
      normalize_longitude (cusps.getD i 0 + off) := by
  unfold rotate_house_cusps
  rw [List.getD_eq_getElem?_getD, List.getElem?_map, List.getD_eq_getElem?_getD,
    List.getElem?_eq_getElem hi]
  rfl

/-- C3 (spec-modelled): with the offset `horary_ascendant - astronomical
ascendant`, the rotated house cusps are a rigid shift of the originals: the
list keeps its twelve entries, each rotated cusp is the original plus the
single offset renormalized, every pairwise inter-cusp spacing is unchanged
modulo 360, and rotated cusp 1 equals the horary Ascendant. -/
theorem C3_cusp_rotation_rigid (cusps : List ℚ) (horary_asc astronomical_asc : ℚ)
    (hlen : cusps.length = 12)
    (hc1 : cusps.getD 0 0 = astronomical_asc)
    (h0 : 0 ≤ horary_asc) (h1 : horary_asc < 360) :
    (rotate_house_cusps cusps (horary_asc - astronomical_asc)).length = 12 ∧
    (∀ i, i < 12 →
      (rotate_house_cusps cusps (horary_asc - astronomical_asc)).getD i 0 =
        normalize_longitude (cusps.getD i 0 + (horary_asc - astronomical_asc))) ∧
    (∀ i j, i < 12 → j < 12 → ∃ z : ℤ,
      (rotate_house_cusps cusps (horary_asc - astronomical_asc)).getD i 0 -
        (rotate_house_cusps cusps (horary_asc - astronomical_asc)).getD j 0 -
        (cusps.getD i 0 - cusps.getD j 0) = 360 * z) ∧
    (rotate_house_cusps cusps (horary_asc - astronomical_asc)).getD 0 0 = horary_asc := by
  have hl : ∀ i, i < 12 → i < cusps.length := by omega
  refine ⟨?_, ?_, ?_, ?_⟩
  · unfold rotate_house_cusps
    rw [List.length_map, hlen]
  · intro i hi
    exact rotate_house_cusps_getD cusps _ i (hl i hi)
  · intro i j hi hj
    rw [rotate_house_cusps_getD cusps _ i (hl i hi),
      rotate_house_cusps_getD cusps _ j (hl j hj)]
    refine ⟨⌊(cusps.getD j 0 + (horary_asc - astronomical_asc)) / 360⌋ -
      ⌊(cusps.getD i 0 + (horary_asc - astronomical_asc)) / 360⌋, ?_⟩
    unfold normalize_longitude
    push_cast
    ring
  · rw [rotate_house_cusps_getD cusps _ 0 (hl 0 (by omega)), hc1]
    have : astronomical_asc + (horary_asc - astronomical_asc) = horary_asc := by ring
    rw [this]
    exact normalize_longitude_eq_self h0 h1

/-- Witness for C3: an explicit twelve-cusp chart rotated to the horary
Ascendant 15 keeps cusp 1 at 15. -/
theorem C3_cusp_rotation_rigid_witness :
    (rotate_house_cusps [5, 30, 60, 90, 120, 150, 185, 210, 240, 270, 300, 330]
      (15 - 5)).getD 0 0 = 15 :=
  (C3_cusp_rotation_rigid [5, 30, 60, 90, 120, 150, 185, 210, 240, 270, 300, 330]
    15 5 (by decide) (by decide) (by decide) (by decide)).2.2.2
/-- C7: in manual mode (any mode string whose lower-casing is "manual"),
`calculate_ayanamsa` returns the caller-supplied manual value unchanged with
the label Manual, ignores the Julian Day entirely, and fails with the
ValueError (InvalidInput) exactly when no manual value is supplied. -/
theorem C7_manual_ayanamsa (jd jd' : ℚ) (s : String) (mv : Option ℚ)
    (hs : py_lower s = "manual") :
    (∀ v : ℚ, mv = some v → calculate_ayanamsa jd s mv = .ok (v, "Manual")) ∧
    ((∃ e, calculate_ayanamsa jd s mv = .error e) ↔ mv = none) ∧
    calculate_ayanamsa jd s mv = calculate_ayanamsa jd' s mv := by
  have hmain : ∀ j : ℚ, calculate_ayanamsa j s mv =
      (match mv with
        | none =>
          .error "manual_ayanamsa value is required when ayanamsa_type is manual"
        | some v => .ok (v, "Manual")) := by
    intro j
    unfold calculate_ayanamsa
    rw [hs]
    simp only [if_true]
  refine ⟨?_, ?_, by rw [hmain jd, hmain jd']⟩
  · intro v hv
    rw [hmain jd, hv]
  · cases mv with
    | none =>
      refine ⟨fun _ => rfl, fun _ => ?_⟩
      exact ⟨"manual_ayanamsa value is required when ayanamsa_type is manual",
        by rw [hmain jd]⟩
    | some v =>
      constructor
      · rintro ⟨e, he⟩
        rw [hmain jd] at he
        cases he
      · intro h
        cases h

/-- Witness for C7 with mode string Manual (upper-cased) and manual value 5. -/
theorem C7_manual_ayanamsa_witness :
    (∀ v : ℚ, (some (5 : ℚ)) = some v →
      calculate_ayanamsa 1 "Manual" (some 5) = .ok (v, "Manual")) ∧
    ((∃ e, calculate_ayanamsa 1 "Manual" (some 5) = .error e) ↔
      (some (5 : ℚ)) = none) ∧
    calculate_ayanamsa 1 "Manual" (some 5) = calculate_ayanamsa 2 "Manual" (some 5) :=
  C7_manual_ayanamsa 1 2 "Manual" (some 5) (by decide)

/-- C10: any mode string whose lower-casing is neither "manual" nor "old" —
misspellings and unknown names included — silently produces the KP New
(Balachandran) value with its label, never an error. -/
theorem C10_unknown_mode_defaults_to_new (jd : ℚ) (s : String) (mv : Option ℚ)
    (h1 : py_lower s ≠ "manual") (h2 : py_lower s ≠ "old") :
    calculate_ayanamsa jd s mv =
      .ok (calculate_kp_new_ayanamsa jd, "KP New (Balachandran)") := by
  unfold calculate_ayanamsa
  simp only []
  rw [if_neg h1, if_neg h2]

/-- Witness for C10 at the misspelled mode string neww on J2000 noon. -/
theorem C10_unknown_mode_defaults_to_new_witness :
    calculate_ayanamsa 2451545 "neww" none =
      .ok (calculate_kp_new_ayanamsa 2451545, "KP New (Balachandran)") :=
  C10_unknown_mode_defaults_to_new 2451545 "neww" none (by decide) (by decide)
/-- C8 counterexample: the spec's example value 13.333333 lies just below the
exact nakshatra boundary 40/3 = 13.3333..., so `calculate_dasha_balance`
places the Moon at the very end of Ashwini (lord Ketu): the stored balance is
0.0 years — essentially nothing of the period remains — not the full 7-year
period of the boundary nakshatra's lord that the claim expects. -/
theorem C8_counterexample_decimal_boundary :
    (calculate_dasha_balance (13333333 / 1000000) 0).birth_dasha_lord = Planet.Ketu ∧
    (calculate_dasha_balance (13333333 / 1000000) 0).nakshatra_index = 1 ∧
    (calculate_dasha_balance (13333333 / 1000000) 0).balance_years = 0 ∧
    VIMSHOTTARI_PERIODS Planet.Ketu = 7 := by
  exact ⟨by decide, by decide, by decide, by decide⟩

/-- C8 (amended): a Moon longitude exactly at a nakshatra boundary — the
exact multiple `k * NAKSHATRA_SPAN`, not its 6-decimal approximation — gives
balance fraction exactly 1: the position in the nakshatra starting there is
0 and the stored balance is that lord's full Vimshottari period, per
`balance = (star_span - position) / star_span * period`. -/
theorem C8_dasha_balance_at_exact_boundary (k : ℕ) (hk : k < 27) (t : ℚ) :
    (calculate_dasha_balance ((k : ℚ) * NAKSHATRA_SPAN) t).birth_dasha_lord =
      NAKSHATRAS.getD k .Ketu ∧
    (calculate_dasha_balance ((k : ℚ) * NAKSHATRA_SPAN) t).position_in_nakshatra = 0 ∧
    (calculate_dasha_balance ((k : ℚ) * NAKSHATRA_SPAN) t).balance_years =
      VIMSHOTTARI_PERIODS (NAKSHATRAS.getD k .Ketu) ∧
    (NAKSHATRA_SPAN - 0) / NAKSHATRA_SPAN = 1 := by
  interval_cases k <;> exact ⟨rfl, rfl, rfl, by norm_num [NAKSHATRA_SPAN]⟩

/-- Witness for C8 at the first boundary 40/3 (nakshatra Bharani, lord
Venus, full period 20 years). -/
theorem C8_dasha_balance_at_exact_boundary_witness :
    (calculate_dasha_balance (((1 : ℕ) : ℚ) * NAKSHATRA_SPAN) 0).birth_dasha_lord =
      NAKSHATRAS.getD 1 .Ketu ∧
    (calculate_dasha_balance (((1 : ℕ) : ℚ) * NAKSHATRA_SPAN) 0).position_in_nakshatra = 0 ∧
    (calculate_dasha_balance (((1 : ℕ) : ℚ) * NAKSHATRA_SPAN) 0).balance_years =
      VIMSHOTTARI_PERIODS (NAKSHATRAS.getD 1 .Ketu) ∧
    (NAKSHATRA_SPAN - 0) / NAKSHATRA_SPAN = 1 :=
  C8_dasha_balance_at_exact_boundary 1 (by decide) 0
/-- Sum of the nine rounded proportional child durations stays within nine
half-units of the last rounded decimal place of the parent duration `y`
(the nine Vimshottari periods from any start index sum to 120). -/
theorem sum_pyRound_children (n : ℕ) (y : ℚ) (s : ℕ) (hs : s < 9) :
    |((List.range 9).map (fun j =>
        pyRound n (y * VIMSHOTTARI_PERIODS (sub_planet s j) / TOTAL_DASHA_YEARS))).sum
      - y| ≤ 9 * (1 / (2 * 10 ^ n)) := by
  have hrange : List.range 9 = [0, 1, 2, 3, 4, 5, 6, 7, 8] := rfl
  rw [hrange]
  simp only [List.map_cons, List.map_nil, List.sum_cons, List.sum_nil, add_zero]
  have hT : TOTAL_DASHA_YEARS = 120 := rfl
  have hsum : VIMSHOTTARI_PERIODS (sub_planet s 0) + VIMSHOTTARI_PERIODS (sub_planet s 1) +
      VIMSHOTTARI_PERIODS (sub_planet s 2) + VIMSHOTTARI_PERIODS (sub_planet s 3) +
      VIMSHOTTARI_PERIODS (sub_planet s 4) + VIMSHOTTARI_PERIODS (sub_planet s 5) +
      VIMSHOTTARI_PERIODS (sub_planet s 6) + VIMSHOTTARI_PERIODS (sub_planet s 7) +
      VIMSHOTTARI_PERIODS (sub_planet s 8) = 120 := by
    interval_cases s <;> decide
  have b0 := pyRound_close n (y * VIMSHOTTARI_PERIODS (sub_planet s 0) / TOTAL_DASHA_YEARS)
  have b1 := pyRound_close n (y * VIMSHOTTARI_PERIODS (sub_planet s 1) / TOTAL_DASHA_YEARS)
  have b2 := pyRound_close n (y * VIMSHOTTARI_PERIODS (sub_planet s 2) / TOTAL_DASHA_YEARS)
  have b3 := pyRound_close n (y * VIMSHOTTARI_PERIODS (sub_planet s 3) / TOTAL_DASHA_YEARS)
  have b4 := pyRound_close n (y * VIMSHOTTARI_PERIODS (sub_planet s 4) / TOTAL_DASHA_YEARS)
  have b5 := pyRound_close n (y * VIMSHOTTARI_PERIODS (sub_planet s 5) / TOTAL_DASHA_YEARS)
  have b6 := pyRound_close n (y * VIMSHOTTARI_PERIODS (sub_planet s 6) / TOTAL_DASHA_YEARS)
  have b7 := pyRound_close n (y * VIMSHOTTARI_PERIODS (sub_planet s 7) / TOTAL_DASHA_YEARS)
  have b8 := pyRound_close n (y * VIMSHOTTARI_PERIODS (sub_planet s 8) / TOTAL_DASHA_YEARS)
  have hx : y * VIMSHOTTARI_PERIODS (sub_planet s 0) / TOTAL_DASHA_YEARS +
      y * VIMSHOTTARI_PERIODS (sub_planet s 1) / TOTAL_DASHA_YEARS +
      y * VIMSHOTTARI_PERIODS (sub_planet s 2) / TOTAL_DASHA_YEARS +
      y * VIMSHOTTARI_PERIODS (sub_planet s 3) / TOTAL_DASHA_YEARS +
      y * VIMSHOTTARI_PERIODS (sub_planet s 4) / TOTAL_DASHA_YEARS +
      y * VIMSHOTTARI_PERIODS (sub_planet s 5) / TOTAL_DASHA_YEARS +
      y * VIMSHOTTARI_PERIODS (sub_planet s 6) / TOTAL_DASHA_YEARS +
      y * VIMSHOTTARI_PERIODS (sub_planet s 7) / TOTAL_DASHA_YEARS +
      y * VIMSHOTTARI_PERIODS (sub_planet s 8) / TOTAL_DASHA_YEARS = y := by
    rw [hT]
    rw [show y * VIMSHOTTARI_PERIODS (sub_planet s 0) / 120 +
        y * VIMSHOTTARI_PERIODS (sub_planet s 1) / 120 +
        y * VIMSHOTTARI_PERIODS (sub_planet s 2) / 120 +
        y * VIMSHOTTARI_PERIODS (sub_planet s 3) / 120 +
        y * VIMSHOTTARI_PERIODS (sub_planet s 4) / 120 +
        y * VIMSHOTTARI_PERIODS (sub_planet s 5) / 120 +
        y * VIMSHOTTARI_PERIODS (sub_planet s 6) / 120 +
        y * VIMSHOTTARI_PERIODS (sub_planet s 7) / 120 +
        y * VIMSHOTTARI_PERIODS (sub_planet s 8) / 120 =
      y * (VIMSHOTTARI_PERIODS (sub_planet s 0) + VIMSHOTTARI_PERIODS (sub_planet s 1) +
        VIMSHOTTARI_PERIODS (sub_planet s 2) + VIMSHOTTARI_PERIODS (sub_planet s 3) +
        VIMSHOTTARI_PERIODS (sub_planet s 4) + VIMSHOTTARI_PERIODS (sub_planet s 5) +
        VIMSHOTTARI_PERIODS (sub_planet s 6) + VIMSHOTTARI_PERIODS (sub_planet s 7) +
        VIMSHOTTARI_PERIODS (sub_planet s 8)) / 120 from by ring, hsum]
    norm_num
  rw [abs_le] at b0 b1 b2 b3 b4 b5 b6 b7 b8 ⊢
  constructor <;>
    linarith [b0.1, b0.2, b1.1, b1.2, b2.1, b2.2, b3.1, b3.2, b4.1, b4.2,
      b5.1, b5.2, b6.1, b6.2, b7.1, b7.2, b8.1, b8.2, hx]

/-- C4 (amended): for every parent period node, each of the three
subdivision functions (Antardasha, Pratyantardasha, Sookshma) produces
exactly 9 children that chain contiguously in time starting at the parent's
start; each child's stored duration is `parent_duration * child_full_period /
120` rounded to the stored precision (4 decimals, 6 for Sookshma), hence
within half a unit of the last stored decimal of the exact proportional
value; and the sum of the 9 stored durations equals the parent's duration
within nine such half-units. -/
theorem C4_dasha_subdivision_proportional (parent : DashaPeriod) :
    ((calculate_antardasha_periods parent).length = 9 ∧
    ((calculate_antardasha_periods parent).getD 0 ⟨.Ketu, 0, 0, 0, 0⟩).start_date = parent.start_date ∧
    (∀ j : ℕ, j + 1 < 9 →
      ((calculate_antardasha_periods parent).getD (j + 1) ⟨.Ketu, 0, 0, 0, 0⟩).start_date =
      ((calculate_antardasha_periods parent).getD j ⟨.Ketu, 0, 0, 0, 0⟩).end_date) ∧
    (∀ j : ℕ, j < 9 →
      ((calculate_antardasha_periods parent).getD j ⟨.Ketu, 0, 0, 0, 0⟩).duration_years =
      pyRound 4 (parent.duration_years *
        VIMSHOTTARI_PERIODS (sub_planet (VIMSHOTTARI_ORDER.indexOf parent.planet) j) /
        TOTAL_DASHA_YEARS) ∧
      |((calculate_antardasha_periods parent).getD j ⟨.Ketu, 0, 0, 0, 0⟩).duration_years -
        parent.duration_years *
          VIMSHOTTARI_PERIODS (sub_planet (VIMSHOTTARI_ORDER.indexOf parent.planet) j) /
          TOTAL_DASHA_YEARS| ≤ 1 / 20000) ∧
    |(((calculate_antardasha_periods parent).map DashaPeriod.duration_years).sum) -
      parent.duration_years| ≤ 9 / 20000) ∧
    ((calculate_pratyantardasha_periods parent).length = 9 ∧
    ((calculate_pratyantardasha_periods parent).getD 0 ⟨.Ketu, 0, 0, 0, 0⟩).start_date = parent.start_date ∧
    (∀ j : ℕ, j + 1 < 9 →
      ((calculate_pratyantardasha_periods parent).getD (j + 1) ⟨.Ketu, 0, 0, 0, 0⟩).start_date =
      ((calculate_pratyantardasha_periods parent).getD j ⟨.Ketu, 0, 0, 0, 0⟩).end_date) ∧
    (∀ j : ℕ, j < 9 →
      ((calculate_pratyantardasha_periods parent).getD j ⟨.Ketu, 0, 0, 0, 0⟩).duration_years =
      pyRound 4 (parent.duration_years *
        VIMSHOTTARI_PERIODS (sub_planet (VIMSHOTTARI_ORDER.indexOf parent.planet) j) /
        TOTAL_DASHA_YEARS) ∧
      |((calculate_pratyantardasha_periods parent).getD j ⟨.Ketu, 0, 0, 0, 0⟩).duration_years -
        parent.duration_years *
          VIMSHOTTARI_PERIODS (sub_planet (VIMSHOTTARI_ORDER.indexOf parent.planet) j) /
          TOTAL_DASHA_YEARS| ≤ 1 / 20000) ∧
    |(((calculate_pratyantardasha_periods parent).map DashaPeriod.duration_years).sum) -
      parent.duration_years| ≤ 9 / 20000) ∧
    ((calculate_sookshma_dasha_periods parent).length = 9 ∧
    ((calculate_sookshma_dasha_periods parent).getD 0 ⟨.Ketu, 0, 0, 0, 0⟩).start_date = parent.start_date ∧
    (∀ j : ℕ, j + 1 < 9 →
      ((calculate_sookshma_dasha_periods parent).getD (j + 1) ⟨.Ketu, 0, 0, 0, 0⟩).start_date =
      ((calculate_sookshma_dasha_periods parent).getD j ⟨.Ketu, 0, 0, 0, 0⟩).end_date) ∧
    (∀ j : ℕ, j < 9 →
      ((calculate_sookshma_dasha_periods parent).getD j ⟨.Ketu, 0, 0, 0, 0⟩).duration_years =
      pyRound 6 (parent.duration_years *
        VIMSHOTTARI_PERIODS (sub_planet (VIMSHOTTARI_ORDER.indexOf parent.planet) j) /
        TOTAL_DASHA_YEARS) ∧
      |((calculate_sookshma_dasha_periods parent).getD j ⟨.Ketu, 0, 0, 0, 0⟩).duration_years -
        parent.duration_years *
          VIMSHOTTARI_PERIODS (sub_planet (VIMSHOTTARI_ORDER.indexOf parent.planet) j) /
          TOTAL_DASHA_YEARS| ≤ 1 / 2000000) ∧
    |(((calculate_sookshma_dasha_periods parent).map DashaPeriod.duration_years).sum) -
      parent.duration_years| ≤ 9 / 2000000) := by
  refine ⟨?_, ?_, ?_⟩
  · refine ⟨rfl, rfl, ?_, ?_, ?_⟩
    · intro j hj
      have hj8 : j < 8 := by omega
      clear hj
      interval_cases j <;> rfl
    · intro j hj
      have hb : (1 : ℚ) / (2 * 10 ^ 4) = 1 / 20000 := by norm_num
      constructor
      · interval_cases j <;> rfl
      · rw [← hb]
        have hr : ((calculate_antardasha_periods parent).getD j ⟨.Ketu, 0, 0, 0, 0⟩).duration_years =
            pyRound 4 (parent.duration_years *
              VIMSHOTTARI_PERIODS (sub_planet (VIMSHOTTARI_ORDER.indexOf parent.planet) j) /
              TOTAL_DASHA_YEARS) := by
          interval_cases j <;> rfl
        rw [hr]
        exact pyRound_close 4 _
    · have hb : (9 : ℚ) * (1 / (2 * 10 ^ 4)) = 9 / 20000 := by norm_num
      rw [← hb]
      exact sum_pyRound_children 4 parent.duration_years _ (indexOf_lt_nine parent.planet)
  · refine ⟨rfl, rfl, ?_, ?_, ?_⟩
    · intro j hj
      have hj8 : j < 8 := by omega
      clear hj
      interval_cases j <;> rfl
    · intro j hj
      have hb : (1 : ℚ) / (2 * 10 ^ 4) = 1 / 20000 := by norm_num
      constructor
      · interval_cases j <;> rfl
      · rw [← hb]
        have hr : ((calculate_pratyantardasha_periods parent).getD j ⟨.Ketu, 0, 0, 0, 0⟩).duration_years =
            pyRound 4 (parent.duration_years *
              VIMSHOTTARI_PERIODS (sub_planet (VIMSHOTTARI_ORDER.indexOf parent.planet) j) /
              TOTAL_DASHA_YEARS) := by
          interval_cases j <;> rfl
        rw [hr]
        exact pyRound_close 4 _
    · have hb : (9 : ℚ) * (1 / (2 * 10 ^ 4)) = 9 / 20000 := by norm_num
      rw [← hb]
      exact sum_pyRound_children 4 parent.duration_years _ (indexOf_lt_nine parent.planet)
  · refine ⟨rfl, rfl, ?_, ?_, ?_⟩
    · intro j hj
      have hj8 : j < 8 := by omega
      clear hj
      interval_cases j <;> rfl
    · intro j hj
      have hb : (1 : ℚ) / (2 * 10 ^ 6) = 1 / 2000000 := by norm_num
      constructor
      · interval_cases j <;> rfl
      · rw [← hb]
        have hr : ((calculate_sookshma_dasha_periods parent).getD j ⟨.Ketu, 0, 0, 0, 0⟩).duration_years =
            pyRound 6 (parent.duration_years *
              VIMSHOTTARI_PERIODS (sub_planet (VIMSHOTTARI_ORDER.indexOf parent.planet) j) /
              TOTAL_DASHA_YEARS) := by
          interval_cases j <;> rfl
        rw [hr]
        exact pyRound_close 6 _
    · have hb : (9 : ℚ) * (1 / (2 * 10 ^ 6)) = 9 / 2000000 := by norm_num
      rw [← hb]
      exact sum_pyRound_children 6 parent.duration_years _ (indexOf_lt_nine parent.planet)

/-- C4 counterexample: a 7-year Ketu Mahadasha's second Antardasha (Venus)
has exact proportional duration 7 * 20 / 120 = 7/6 years, but the stored
child duration is the 4-decimal rounding 1.1667, which differs from 7/6 —
so the claim's exact per-child duration formula fails for the stored values. -/
theorem C4_counterexample_rounded_child_duration :
    ((calculate_antardasha_periods ⟨Planet.Ketu, 0, 2557, 7, 2557⟩).getD 1
      ⟨.Ketu, 0, 0, 0, 0⟩).duration_years = 11667 / 10000 ∧
    (7 : ℚ) * VIMSHOTTARI_PERIODS Planet.Venus / TOTAL_DASHA_YEARS = 7 / 6 ∧
    (11667 / 10000 : ℚ) ≠ 7 / 6 := by
  exact ⟨by decide, by decide, by decide⟩
/-- Every shortest-path angular difference is at most 180, so the sentinel
`DIFF_INF` compares exactly like the source's float infinity. -/
theorem angular_difference_le (a b : ℚ) : angular_difference a b ≤ 180 := by
  unfold angular_difference
  simp only []
  split_ifs with h
  · linarith
  · linarith [abs_nonneg (a - b), h]

/-- The three-sample best-match update keeps the best match coupled to the
best distance. -/
theorem search_best3_inv (asc : ℤ → ℚ) (target : ℚ) (low high : ℤ)
    (bm : Option ℤ) (bd : ℚ)
    (h : ∀ t, bm = some t → angular_difference target (asc t) = bd) :
    ∀ t, (search_best3 asc target low high bm bd).1 = some t →
      angular_difference target (asc t) = (search_best3 asc target low high bm bd).2 := by
  intro t
  unfold search_best3
  simp only []
  split_ifs with h1 h2 h3 h2 h3 h3 h3 <;> intro ht <;>
    first
      | (cases Option.some.inj ht; rfl)
      | exact h t ht

/-- The final filter returns a time only when the best distance is below one
half degree, and not-found otherwise. -/
theorem search_finish_spec (asc : ℤ → ℚ) (target : ℚ) (bm : Option ℤ) (bd : ℚ)
    (hinv : ∀ t, bm = some t → angular_difference target (asc t) = bd) :
    (∀ t, search_finish bm bd = some t → angular_difference target (asc t) < 1 / 2) ∧
    (1 / 2 ≤ bd → search_finish bm bd = none) := by
  constructor
  · intro t ht
    cases bm with
    | none => exact absurd ht (by simp [search_finish])
    | some b =>
      have ht' : (if bd < 1 / 2 then some b else none) = some t := ht
      by_cases hlt : bd < 1 / 2
      · rw [if_pos hlt] at ht'
        cases Option.some.inj ht'
        rw [hinv _ rfl]
        exact hlt
      · rw [if_neg hlt] at ht'
        cases ht'
  · intro hge
    cases bm with
    | none => rfl
    | some b =>
      show (if bd < 1 / 2 then some b else none) = none
      rw [if_neg (by linarith)]

/-- Loop invariant of `searchGo`: with the best match coupled to the best
distance and `iterations + fuel = 50`, the search ends within the cap, any
returned time lies within one half degree of the target, a residual of one
half or more forces not-found, and ending before the cap means the bracket
closed below the precision or the in-loop exact match fired. -/
theorem searchGo_spec (asc : ℤ → ℚ) (target : ℚ) (precision : ℤ) :
    ∀ (fuel : ℕ) (low high : ℤ) (bm : Option ℤ) (bd : ℚ) (iter : ℕ),
      (∀ t, bm = some t → angular_difference target (asc t) = bd) →
      iter + fuel = 50 →
      (searchGo asc target precision fuel low high bm bd iter).iterations ≤ 50 ∧
      (∀ t, (searchGo asc target precision fuel low high bm bd iter).result = some t →
        angular_difference target (asc t) < 1 / 2) ∧
      (1 / 2 ≤ (searchGo asc target precision fuel low high bm bd iter).best_diff →
        (searchGo asc target precision fuel low high bm bd iter).result = none) ∧
      ((searchGo asc target precision fuel low high bm bd iter).iterations < 50 →
        (searchGo asc target precision fuel low high bm bd iter).high -
          (searchGo asc target precision fuel low high bm bd iter).low ≤ precision ∨
        (searchGo asc target precision fuel low high bm bd iter).best_diff < 1 / 100) := by
  intro fuel
  induction fuel with
  | zero =>
    intro low high bm bd iter hinv hcount
    refine ⟨?_, ?_, ?_, ?_⟩
    · show iter ≤ 50
      omega
    · exact (search_finish_spec asc target bm bd hinv).1
    · exact (search_finish_spec asc target bm bd hinv).2
    · intro h
      exact absurd (show iter < 50 from h) (by omega)
  | succ fuel ih =>
    intro low high bm bd iter hinv hcount
    have hinv3 := search_best3_inv asc target low high bm bd hinv
    simp only [searchGo]
    split_ifs with hguard hexact
    · refine ⟨by show iter + 1 ≤ 50; omega, ?_, ?_, ?_⟩
      · intro t ht
        have := hinv3 t ht
        linarith
      · intro hge
        exact absurd hexact (by push_neg; linarith)
      · intro _
        right
        exact hexact
    · exact ih _ _ _ _ (iter + 1) hinv3 (by omega)
    · refine ⟨?_, ?_, ?_, ?_⟩
      · show iter ≤ 50
        omega
      · exact (search_finish_spec asc target bm bd hinv).1
      · exact (search_finish_spec asc target bm bd hinv).2
      · intro _
        left
        show high - low ≤ precision
        omega

/-- C6: for every ascendant oracle (hence every date, latitude and
longitude), every target and every starting bracket, the bracket-narrowing
search terminates within the 50-iteration cap; any time it returns lies
within half a degree of the target (never a silently wrong time), a best
residual of half a degree or more yields not-found, and stopping before the
cap happens only with the bracket at or below the precision tolerance or an
in-loop exact match (residual below one hundredth of a degree). -/
theorem C6_time_search_bounded_and_sound (asc : ℤ → ℚ) (target : ℚ)
    (low high precision : ℤ) :
    (binary_search_ascendant asc target low high precision).iterations ≤ 50 ∧
    (∀ t, (binary_search_ascendant asc target low high precision).result = some t →
      angular_difference target (asc t) < 1 / 2) ∧
    (1 / 2 ≤ (binary_search_ascendant asc target low high precision).best_diff →
      (binary_search_ascendant asc target low high precision).result = none) ∧
    ((binary_search_ascendant asc target low high precision).iterations < 50 →
      (binary_search_ascendant asc target low high precision).high -
        (binary_search_ascendant asc target low high precision).low ≤ precision ∨
      (binary_search_ascendant asc target low high precision).best_diff < 1 / 100) :=
  searchGo_spec asc target precision 50 low high none DIFF_INF 0
    (fun t ht => absurd ht (by simp)) rfl

/-! ### C5: Julian Day round trip -/

/-- Python int() of a nonnegative integer quotient is integer division. -/
theorem pytrunc_div_nat (a : ℤ) (d : ℕ) (ha : 0 ≤ a) (hd : 0 < d) :
    pytrunc ((a : ℚ) / (d : ℚ)) = a / (d : ℤ) := by
  have h1 : (0 : ℚ) ≤ (a : ℚ) / (d : ℚ) := by positivity
  rw [pytrunc, if_pos h1, Rat.floor_intCast_div_natCast]

/-- The 365.25-scaled truncation of the forward conversion as integer division. -/
theorem pytrunc_meeus_year (a : ℤ) (ha : 0 ≤ a) :
    pytrunc (365.25 * (a : ℚ)) = 1461 * a / 4 := by
  rw [show (365.25 : ℚ) * (a : ℚ) = ((1461 * a : ℤ) : ℚ) / ((4 : ℕ) : ℚ) by
    push_cast; ring]
  exact pytrunc_div_nat (1461 * a) 4 (by omega) (by norm_num)

/-- The 30.6001-scaled truncation (month table) as integer division. -/
theorem pytrunc_meeus_month (e : ℤ) (he : 0 ≤ e) :
    pytrunc (30.6001 * (e : ℚ)) = 306001 * e / 10000 := by
  rw [show (30.6001 : ℚ) * (e : ℚ) = ((306001 * e : ℤ) : ℚ) / ((10000 : ℕ) : ℚ) by
    push_cast; ring]
  exact pytrunc_div_nat (306001 * e) 10000 (by omega) (by norm_num)

/-- The century-correction truncation of the inverse conversion as integer
division, valid from the Gregorian cutover day count on. -/
theorem pytrunc_meeus_alpha (z : ℤ) (hz : 2299161 ≤ z) :
    pytrunc (((z : ℚ) - 1867216.25) / 36524.25) = (4 * z - 7468865) / 146097 := by
  rw [show ((z : ℚ) - 1867216.25) / 36524.25 =
      ((4 * z - 7468865 : ℤ) : ℚ) / ((146097 : ℕ) : ℚ) by
    push_cast
    rw [div_eq_div_iff (by norm_num) (by norm_num)]
    ring]
  exact pytrunc_div_nat (4 * z - 7468865) 146097 (by omega) (by norm_num)

/-- The year-recovery truncation of the inverse conversion as integer division. -/
theorem pytrunc_meeus_C (b : ℤ) (hb : 123 ≤ b) :
    pytrunc (((b : ℚ) - 122.1) / 365.25) = (20 * b - 2442) / 7305 := by
  rw [show ((b : ℚ) - 122.1) / 365.25 =
      ((20 * b - 2442 : ℤ) : ℚ) / ((7305 : ℕ) : ℚ) by
    push_cast
    rw [div_eq_div_iff (by norm_num) (by norm_num)]
    ring]
  exact pytrunc_div_nat (20 * b - 2442) 7305 (by omega) (by norm_num)

/-- The month-recovery truncation of the inverse conversion as integer division. -/
theorem pytrunc_meeus_E (b dd : ℤ) (h : dd ≤ b) :
    pytrunc (((b : ℚ) - (dd : ℚ)) / 30.6001) = 10000 * (b - dd) / 306001 := by
  rw [show ((b : ℚ) - (dd : ℚ)) / 30.6001 =
      ((10000 * (b - dd) : ℤ) : ℚ) / ((306001 : ℕ) : ℚ) by
    push_cast
    rw [div_eq_div_iff (by norm_num) (by norm_num)]
    ring]
  exact pytrunc_div_nat (10000 * (b - dd)) 306001 (by omega) (by norm_num)

/-- Truncated division by 4 of a nonnegative integer. -/
theorem pytrunc_div4 (a : ℤ) (ha : 0 ≤ a) : pytrunc ((a : ℚ) / 4) = a / 4 := by
  rw [show (4 : ℚ) = ((4 : ℕ) : ℚ) by norm_num, pytrunc_div_nat a 4 ha (by norm_num)]
  norm_num

/-- Core arithmetic identity behind the inverse century correction: with S the
month-table term plus the day (bounded by the calendar month lengths, with the
Gregorian leap rule at the February upper edge), the alpha computed by the
inverse conversion is exactly the century count minus 4. -/
theorem alpha_id (Yc S : ℤ) (h1 : 123 ≤ S)
    (h2 : S ≤ 487 ∨ (S = 488 ∧ ((Yc % 4 = 3 ∧ Yc % 100 ≠ 99) ∨ Yc % 400 = 399))) :
    (4 * (1461 * (Yc + 4716) / 4 + S + (2 - Yc / 100 + Yc / 100 / 4) - 1524)
        - 7468865) / 146097 = Yc / 100 - 4 := by
  have hq1 : 1461 * (Yc + 4716) / 4
      = 36525 * (Yc / 100) + 365 * (Yc % 100) + Yc % 100 / 4 + 1722519 := by
    omega
  have hr : Yc % 100 ≤ 98 ∨ Yc % 100 = 99 := by omega
  rcases hr with hr | hr <;> omega

/-- C5: Julian Day round trip, corrected form.  For every valid calendar
instant (proleptic Gregorian date, zero timezone offset) on or after the
Gregorian cutover 1582-10-15, julian_day_to_date inverts date_to_julian_day
exactly: it returns the same year, month and day, and the exact fractional
hour h + mi/60 + s/3600.  The original claim also asserted this for dates
before the cutover boundary; there it fails, because the forward conversion
applies the Gregorian correction unconditionally while the inverse switches
to the Julian branch below Z = 2299161 (see the counterexample). -/
theorem C5_julian_day_round_trip (y m d h mi : ℤ) (s : ℚ)
    (hvd : validDate y m d) (hvt : validTime h mi s) (hc : onOrAfterCutover y m d) :
    julian_day_to_date (date_to_julian_day y m d h mi s 0) =
      (y, m, d, (h : ℚ) + (mi : ℚ) / 60 + s / 3600) := by
  obtain ⟨hm1, hm12, hd1, hdm⟩ := hvd
  obtain ⟨hh0, hh23, hmi0, hmi59, hs0, hs60⟩ := hvt
  have hy1582 : 1582 ≤ y := by
    rcases hc with h | ⟨h, _⟩ <;> omega
  -- month lengths as arithmetic facts
  have hleap : is_leap_year y = true ↔ ((y % 4 = 0 ∧ y % 100 ≠ 0) ∨ y % 400 = 0) := by
    simp [is_leap_year, Bool.and_eq_true, Bool.or_eq_true, beq_iff_eq, bne_iff_ne]
  have hdmth : d ≤ 31 ∧
      (m = 2 → d ≤ 29) ∧
      (m = 2 → ¬((y % 4 = 0 ∧ y % 100 ≠ 0) ∨ y % 400 = 0) → d ≤ 28) ∧
      ((m = 4 ∨ m = 6 ∨ m = 9 ∨ m = 11) → d ≤ 30) := by
    unfold days_in_month at hdm
    split_ifs at hdm with h1 h2 h3
    · rw [hleap] at h2
      exact ⟨by omega, fun _ => by omega, fun _ hnl => absurd h2 hnl, fun hm => by omega⟩
    · rw [hleap] at h2
      exact ⟨by omega, fun _ => by omega, fun _ _ => by omega, fun hm => by omega⟩
    · refine ⟨by omega, fun hm => absurd hm h1, fun hm _ => absurd hm h1, fun _ => by omega⟩
    · refine ⟨by omega, fun hm => absurd hm h1, fun hm _ => absurd hm h1,
        fun hm => absurd hm h3⟩
  -- time fraction
  set f := ((h : ℚ) + (mi : ℚ) / 60 + s / 3600) / 24 with hf
  have hhq : (h : ℚ) ≤ 23 := by exact_mod_cast hh23
  have hhq0 : (0 : ℚ) ≤ (h : ℚ) := by exact_mod_cast hh0
  have hmiq : (mi : ℚ) ≤ 59 := by exact_mod_cast hmi59
  have hmiq0 : (0 : ℚ) ≤ (mi : ℚ) := by exact_mod_cast hmi0
  have hf0 : 0 ≤ f := by rw [hf]; positivity
  have hf1 : f < 1 := by
    rw [hf, div_lt_one (by norm_num)]
    linarith
  -- the Jan/Feb carry
  set Yc : ℤ := (if m ≤ 2 then y - 1 else y) with hYc
  set Mc : ℤ := (if m ≤ 2 then m + 12 else m) with hMc
  have hcarry : (m ≤ 2 ∧ Yc = y - 1 ∧ Mc = m + 12) ∨ (3 ≤ m ∧ Yc = y ∧ Mc = m) := by
    rw [hYc, hMc]
    split_ifs with h2 <;> omega
  have hYb : 1581 ≤ Yc := by omega
  have hMb : 3 ≤ Mc ∧ Mc ≤ 14 := by omega
  -- the forward conversion as an integer day count plus the time fraction
  set N : ℤ := 1461 * (Yc + 4716) / 4 + 306001 * (Mc + 1) / 10000 + d +
      (2 - Yc / 100 + Yc / 100 / 4) - 1524 with hN
  have hforward : date_to_julian_day y m d h mi s 0 = (N : ℚ) + f - 1 / 2 := by
    unfold date_to_julian_day
    simp only []
    rw [← hYc, ← hMc]
    rw [show ((Yc : ℚ) + 4716) = ((Yc + 4716 : ℤ) : ℚ) by push_cast; ring]
    rw [pytrunc_meeus_year (Yc + 4716) (by omega)]
    rw [show ((Mc : ℚ) + 1) = ((Mc + 1 : ℤ) : ℚ) by push_cast; ring]
    rw [pytrunc_meeus_month (Mc + 1) (by omega)]
    rw [show ((Yc : ℚ) / 100) = ((Yc : ℚ) / ((100 : ℕ) : ℚ)) by norm_num]
    rw [pytrunc_div_nat Yc 100 (by omega) (by norm_num)]
    rw [show (((100 : ℕ) : ℤ)) = (100 : ℤ) by norm_num]
    rw [show (((Yc / 100 : ℤ) : ℚ) / 4) = (((Yc / 100 : ℤ) : ℚ) / ((4 : ℕ) : ℚ)) by
      norm_num]
    rw [pytrunc_div_nat (Yc / 100) 4 (by omega) (by norm_num)]
    rw [show (((4 : ℕ) : ℤ)) = (4 : ℤ) by norm_num]
    rw [hN, hf]
    push_cast
    ring
  -- the integer day count is on or after the Gregorian cutover
  have hcup : 1583 ≤ y ∨ (y = 1582 ∧ (11 ≤ m ∨ (m = 10 ∧ 15 ≤ d))) := hc
  have hNge : 2299161 ≤ N := by omega
  -- inverse conversion
  rw [hforward]
  unfold julian_day_to_date
  simp only []
  rw [show ((N : ℚ) + f - 1 / 2) + 0.5 = (N : ℚ) + f by norm_num]
  have hZ : pytrunc ((N : ℚ) + f) = N := by
    have h0 : (0 : ℚ) ≤ (N : ℚ) + f := by
      have hN0 : (0 : ℚ) ≤ (N : ℚ) := by exact_mod_cast (by omega : (0 : ℤ) ≤ N)
      linarith
    rw [pytrunc, if_pos h0, add_comm, Int.floor_add_int,
      Int.floor_eq_zero_iff.mpr ⟨hf0, hf1⟩]
    omega
  rw [hZ]
  rw [if_neg (by omega : ¬ (N < 2299161))]
  rw [pytrunc_meeus_alpha N hNge]
  rw [pytrunc_div4]
  rw [pytrunc_meeus_C]
  rw [pytrunc_meeus_year]
  rw [pytrunc_meeus_E]
  rw [pytrunc_meeus_month]
  · set alpha : ℤ := (4 * N - 7468865) / 146097 with halpha
    set A2 : ℤ := N + 1 + alpha - alpha / 4 with hA2
    set B2 : ℤ := A2 + 1524 with hB2
    set C2 : ℤ := (20 * B2 - 2442) / 7305 with hC2
    set D2 : ℤ := 1461 * C2 / 4 with hD2
    set E2 : ℤ := 10000 * (B2 - D2) / 306001 with hE2
    have hMcc : Mc = 3 ∨ Mc = 4 ∨ Mc = 5 ∨ Mc = 6 ∨ Mc = 7 ∨ Mc = 8 ∨ Mc = 9 ∨
        Mc = 10 ∨ Mc = 11 ∨ Mc = 12 ∨ Mc = 13 ∨ Mc = 14 := by omega
    have halpha_val : alpha = Yc / 100 - 4 := by
      have hS2 : 306001 * (Mc + 1) / 10000 + d ≤ 487 ∨
          (306001 * (Mc + 1) / 10000 + d = 488 ∧
            ((Yc % 4 = 3 ∧ Yc % 100 ≠ 99) ∨ Yc % 400 = 399)) := by
        rcases hMcc with h | h | h | h | h | h | h | h | h | h | h | h <;> omega
      have h0 := alpha_id Yc (306001 * (Mc + 1) / 10000 + d) (by omega) hS2
      omega
    have hA4 : alpha / 4 = Yc / 100 / 4 - 1 := by omega
    have hB2val : B2 = 1461 * (Yc + 4716) / 4 + 306001 * (Mc + 1) / 10000 + d := by
      omega
    have hC2val : C2 = Yc + 4716 := by omega
    have hD2val : D2 = 1461 * (Yc + 4716) / 4 := by omega
    have hE2val : E2 = Mc + 1 := by
      rcases hMcc with h | h | h | h | h | h | h | h | h | h | h | h <;> omega
    simp only [Prod.mk.injEq]
    refine ⟨?_, ?_, ?_, ?_⟩
    · split_ifs <;> omega
    · split_ifs <;> omega
    · omega
    · rw [hf]; ring
  all_goals omega

/-- C5 counterexample: 1582-10-04, the last Julian-calendar day before the
cutover gap, is a valid calendar date, yet the round trip returns 1582-09-24
instead: the forward conversion is always Gregorian while the inverse takes
the Julian branch for day counts below 2299161. -/
theorem C5_counterexample_pre_cutover :
    validDate 1582 10 4 ∧ validTime 0 0 0 ∧
      julian_day_to_date (date_to_julian_day 1582 10 4 0 0 0 0) ≠
        (1582, 10, 4, 0) :=
  ⟨by unfold validDate; decide, by unfold validTime; decide, by decide⟩

/-- Witness for C5: the leap day 2000-02-29 at 13:45:30 round-trips exactly. -/
theorem C5_julian_day_round_trip_witness :
    julian_day_to_date (date_to_julian_day 2000 2 29 13 45 30 0) =
      (2000, 2, 29, ((13 : ℤ) : ℚ) + ((45 : ℤ) : ℚ) / 60 + (30 : ℚ) / 3600) :=
  C5_julian_day_round_trip 2000 2 29 13 45 30 (by unfold validDate; decide)
    (by unfold validTime; decide) (by unfold onOrAfterCutover; decide)
